import Mathlib

/-!
Verification development for the PCP assignment / specialist search
conversation service (src/PCP.py and src/search.py).

The Python program is shallowly embedded: every graph node of src/PCP.py that
the properties below touch is translated into a pure Lean function over an
explicit conversation-state record.  External collaborators (the Horizon LLM
gateway, REST member/provider lookups, the SOAP ExecuteEx endpoint, the
default-distance CSV) are passed in as explicit parameters; a collaborator
whose Python call site is not wrapped in try/except is modelled as
Except-valued with the error propagated, exactly as a raised exception would
propagate out of the node.  Python dict truthiness is modelled explicitly
(none / empty string / empty list are falsy).  Where a node records which
external calls it performed, the embedding returns the ordered call trace
alongside the state, so that absence of calls and call order are provable.

Python str.strip / str.lower / str.replace are re-implemented over List Char
(ASCII case mapping) so that all definitions evaluate inside the kernel.
-/

namespace PCPSpec

/-! ### Python string primitives -/

/-- Whitespace characters stripped by Python str.strip (ASCII subset). -/
def isWsChar (c : Char) : Bool :=
  c = ' ' || c = '\t' || c = '\n' || c = '\r' || c = Char.ofNat 11 || c = Char.ofNat 12

/-- ASCII lower-casing of one character, as Python str.lower does on ASCII. -/
def lowerChar (c : Char) : Char :=
  if 65 ≤ c.toNat ∧ c.toNat ≤ 90 then Char.ofNat (c.toNat + 32) else c

/-- ASCII upper-casing of one character, as Python str.upper does on ASCII. -/
def upperChar (c : Char) : Char :=
  if 97 ≤ c.toNat ∧ c.toNat ≤ 122 then Char.ofNat (c.toNat - 32) else c

def lowerList (l : List Char) : List Char := l.map lowerChar

/-- Python str.strip from the left only. -/
def stripLeftWs (l : List Char) : List Char := l.dropWhile isWsChar

/-- Python str.strip: drop whitespace from both ends. -/
def stripWs (l : List Char) : List Char :=
  ((l.dropWhile isWsChar).reverse.dropWhile isWsChar).reverse

def pyStrip (s : String) : String := ⟨stripWs s.data⟩

def pyLower (s : String) : String := ⟨lowerList s.data⟩

def pyUpper (s : String) : String := ⟨s.data.map upperChar⟩

/-- Does pat occur as a contiguous run inside l (Python "pat in s")? -/
def hasSub (pat l : List Char) : Bool := decide (pat <:+: l)

/-- Is pat an initial run of l? -/
def startsWithL : List Char → List Char → Bool
  | [], _ => true
  | _ :: _, [] => false
  | p :: ps, c :: cs => p = c && startsWithL ps cs

/-- Python str.replace: replace every non-overlapping occurrence of pat
(scanning left to right) by rep.  The source only ever calls it with a
non-empty pattern; for an empty pattern this model is the identity. -/
def replaceList (pat rep : List Char) : List Char → List Char
  | [] => []
  | c :: rest =>
    if startsWithL pat (c :: rest) ∧ pat ≠ [] then
      rep ++ replaceList pat rep (rest.drop (pat.length - 1))
    else
      c :: replaceList pat rep rest
termination_by l => l.length
decreasing_by
  · simp only [List.length_cons, List.length_drop]
    omega
  · simp only [List.length_cons]
    omega

def pyReplace (s pat rep : String) : String := ⟨replaceList pat.data rep.data s.data⟩

/-! ### Python truthiness helpers -/

def optStr (o : Option String) : String := o.getD ""

/-- Python truthiness of an optional string (None and empty string are falsy). -/
def truthy (o : Option String) : Bool := optStr o ≠ ""

/-- Python truthiness of an optional list (None and empty list are falsy). -/
def truthyList {α : Type} (o : Option (List α)) : Bool := !(o.getD []).isEmpty

/-- Python "a or b" over optional strings: keep a when truthy, else b. -/
def pyOrS (a b : Option String) : Option String := if truthy a then a else b

/-- Python str(x): None renders as the string None. -/
def pyStr : Option String → String
  | some s => s
  | none => "None"

/-- Python "(x or "").strip() if x else """ pattern used on parsed LLM fields. -/
def stripIfTruthy (o : Option String) : String :=
  if truthy o then pyStrip (optStr o) else ""

/-! ### Data model (PCPState TypedDict of src/PCP.py) -/

/-- One normalized provider record.  Each field stands for the key-alias chain
the source reads from the REST payload (for example providerId stands for
providerId / provId / ProviderID, addressLine1 for addressLine1 / address1,
distance_mi for distance_mi / distanceInMiles / Distance_mi). -/
structure Provider where
  providerId : Option String := none
  name : Option String := none
  addressLine1 : Option String := none
  addressLine2 : Option String := none
  city : Option String := none
  stateCode : Option String := none
  zip : Option String := none
  county : Option String := none
  country : Option String := none
  phone : Option String := none
  fax : Option String := none
  addressType : Option String := none
  effectiveDate : Option String := none
  terminationDate : Option String := none
  networkStatus : Option String := none
  isAcceptingNewMembers : Option String := none
  pcpAssnInd : Option String := none
  distance_mi : Option String := none
  deriving Repr, DecidableEq

/-- The conversation state dictionary (class PCPState of src/PCP.py).
All optional fields default to absent, string and list fields that the
endpoints always initialise default to empty.  startingLocationZip and
asOfDate are written by node_run_provider_search even though they are not
declared in the TypedDict (Python dicts accept them). -/
structure PCPState where
  thread_id : String := ""
  member_id : String := ""
  stage : String := ""
  csr_query : String := ""
  last_ai_message : String := ""
  termination_reason : Option String := none
  knows_provider : Option Bool := none
  raw_provider_input : Option String := none
  raw_filter_input : Option String := none
  provider_id : Option String := none
  provider_name : Option String := none
  provider_city : Option String := none
  provider_state : Option String := none
  language : Option String := none
  radius_in_miles : Option Int := none
  gender : Option String := none
  providers_result : Option (List Provider) := none
  last_selected_provider_id : Option String := none
  active_provider_id : Option String := none
  meme_ck : Option String := none
  grgr_ck : Option String := none
  group_id : Option String := none
  subscriber_id : Option String := none
  ai_response : String := ""
  prompts : List String := []
  ai_response_code : Option Int := none
  ai_response_type : Option String := none
  prompt_title : Option String := none
  last_followup_action : Option String := none
  initial_assign_text : Option String := none
  active_eff_dt : Option String := none
  selected_provider_snapshot : Option Provider := none
  flow : Option String := none
  specialist_service_specialty : Option String := none
  specialist_raw_filter_input : Option String := none
  startingLocationZip : Option String := none
  asOfDate : Option String := none
  call_type : Option String := none
  call_name : Option String := none
  deriving Repr, DecidableEq

/-- The payload handed to interrupt(...): the keys various nodes include. -/
structure InterruptPayload where
  prompt : String := ""
  stage : String := ""
  promptsP : Option (List String) := none
  prompt_titleP : Option String := none
  ai_response_codeP : Option Int := none
  ai_response_typeP : Option String := none
  active_provider_idP : Option String := none
  call_sourceP : Option String := none
  deriving Repr, DecidableEq

/-- Outcome of running one node once: either it interrupted (suspended) with a
payload, leaving the state as mutated so far, or it returned the state. -/
inductive NodeOutcome where
  | suspend (payload : InterruptPayload) (st : PCPState)
  | done (st : PCPState)
  deriving Repr, DecidableEq

/-- The state carried by an outcome. -/
def NodeOutcome.state : NodeOutcome → PCPState
  | .suspend _ st => st
  | .done st => st

/-- mark_llm of src/PCP.py (CALL_SOURCE_LLM_LABEL defaults to LLM). -/
def mark_llm (st : PCPState) : PCPState :=
  { st with call_type := some "LLM", call_name := some "LLM" }

/-- mark_api of src/PCP.py: records the collaborator function name. -/
def mark_api (st : PCPState) (name : String) : PCPState :=
  { st with call_type := some "API", call_name := some name }

def DEFAULT_PROMPTS : List String :=
  ["Assign PCP", "Search for specialist", "Need something else"]

def SPECIALIST_SERVICE_QUESTION : String :=
  "<p>What services are you looking for at this location?</p>"

def SPECIALIST_FILTERS_TEMPLATE : String :=
  "<p><b>Ask the below questions:</b></p>\n" ++
  "<ul>\n" ++
  "<li>May I know any other preferred Language, if not English and Gender (Male/Female/Either)?</li>\n" ++
  "<li>The default distance is <<default_distance>> miles, please confirm if any changes needed.</li>\n" ++
  "<li>Search would be performed based on member\x27s home address. If you would like to search provider at different location,please provide with zip code and address line 1.</li>\n" ++
  "<li>Search will be performed with today’s date unless a different date is provided (MM-DD-YYYY).</li>\n" ++
  "</ul>"

/-! ### JSON rendering (json.dumps with separators (",", ":")) -/

def hexDigit (n : Nat) : Char :=
  if n < 10 then Char.ofNat (48 + n) else Char.ofNat (87 + n)

/-- JSON string escaping as json.dumps performs it on BMP text. -/
def jsonEscapeChar (c : Char) : List Char :=
  if c = '"' then ['\\', '"']
  else if c = '\\' then ['\\', '\\']
  else if c = '\n' then ['\\', 'n']
  else if c = '\r' then ['\\', 'r']
  else if c = '\t' then ['\\', 't']
  else if c.toNat < 32 then
    ['\\', 'u', '0', '0', hexDigit (c.toNat / 16), hexDigit (c.toNat % 16)]
  else [c]

def jsonStr (s : String) : String :=
  ⟨'"' :: (s.data.flatMap jsonEscapeChar) ++ ['"']⟩

def jsonOptStr : Option String → String
  | some s => jsonStr s
  | none => "null"

/-- One row of the provider grid JSON (dict literal built by
node_run_provider_search and node_run_specialist_generic_search). -/
structure GridRow where
  ProviderID : String := ""
  Name : String := ""
  Address : String := ""
  Network : String := ""
  IsAcceptingNewMembers : Option String := none
  PCPAssnInd : Option String := none
  DistanceInMiles : Option String := none
  deriving Repr, DecidableEq

def renderGridRow (r : GridRow) : String :=
  "\x7b\"ProviderID\":" ++ jsonStr r.ProviderID ++
  ",\"Name\":" ++ jsonStr r.Name ++
  ",\"Address\":" ++ jsonStr r.Address ++
  ",\"Network\":" ++ jsonStr r.Network ++
  ",\"IsAcceptingNewMembers\":" ++ jsonOptStr r.IsAcceptingNewMembers ++
  ",\"PCPAssnInd\":" ++ jsonOptStr r.PCPAssnInd ++
  ",\"DistanceInMiles\":" ++ jsonOptStr r.DistanceInMiles ++ "\x7d"

/-- json.dumps of the response payload dict with key providers. -/
def renderProvidersJson (rows : List GridRow) : String :=
  "\x7b\"providers\":[" ++ String.intercalate "," (rows.map renderGridRow) ++ "]\x7d"

/-- _format_address_from_provider of src/PCP.py. -/
def formatAddressFromProvider (p : Provider) : String :=
  let parts := [p.addressLine1, p.addressLine2, p.city, p.stateCode, p.zip, p.county]
  let cityLine := (parts.filterMap id).filter (· ≠ "")
  let lines0 : List String := if cityLine ≠ [] then [String.intercalate ", " cityLine] else []
  let lines1 := if truthy p.phone then lines0 ++ ["Phone: " ++ optStr p.phone] else lines0
  let lines2 := if truthy p.fax then lines1 ++ ["Fax: " ++ optStr p.fax] else lines1
  if lines2 ≠ [] then String.intercalate "," lines2 else "Address details not available."

/-! ### Collaborator result shapes -/

/-- Fields of the member_search REST payload that the nodes read. -/
structure MemberPayload where
  grgrCk : Option String := none
  sbsbCk : Option String := none
  memeCk : Option String := none
  grpId : Option String := none
  subscriberId : Option String := none
  deriving Repr, DecidableEq

/-- Fields of the get_active_pcp active object that the nodes read
(provId stands for provId / providerId / PCPProviderId, effDt for
effectiveDate / provEffectiveDt / effDt). -/
structure ActivePcp where
  provId : Option String := none
  effDt : Option String := none
  deriving Repr, DecidableEq

/-- Result shape of llm_parse_provider_input and
llm_extract_provider_query_from_assign_text. -/
structure ParsedProviderInput where
  search_type : Option String := none
  provider_id : Option String := none
  zip : Option String := none
  name : Option String := none
  city : Option String := none
  stateCode : Option String := none
  deriving Repr, DecidableEq

/-- Result shape of llm_parse_zip_and_date. -/
structure ZipDate where
  zip : Option String := none
  as_of_date : Option String := none
  deriving Repr, DecidableEq

/-- Result shape of llm_parse_no_flow_filters and llm_parse_specialist_filters. -/
structure FilterParse where
  use_defaults : Bool := false
  language : Option String := none
  gender : Option String := none
  zip : Option String := none
  as_of_date : Option String := none
  radius_in_miles : Option Int := none
  deriving Repr, DecidableEq

/-! ### Simple graph nodes -/

/-- node_collect_termination_reason of src/PCP.py: if termination_reason is
already truthy return the state unchanged; else consume the stripped
csr_query into termination_reason (clearing csr_query) when it is non-blank,
and otherwise return the state unchanged. -/
def node_collect_termination_reason (st : PCPState) : PCPState :=
  if truthy st.termination_reason then st
  else
    let reason := pyStrip st.csr_query
    if reason ≠ "" then { st with termination_reason := some reason, csr_query := "" }
    else st

/-- node_start of src/PCP.py.  The call_horizon menu message is a collaborator
parameter; its call site has no try/except, so a collaborator failure
propagates out of the node (hence the Except return). -/
def node_start (llm : Except String String) (st : PCPState) (resume : Option String) :
    Except String NodeOutcome :=
  match llm with
  | .error e => .error e
  | .ok ai_msg =>
    let st := mark_llm st
    let st := { st with
      ai_response := ai_msg,
      prompt_title := some "How can I assist you today?",
      prompts := DEFAULT_PROMPTS, ai_response_code := some 100,
      ai_response_type := some "Dialog", stage := "MENU" }
    let payload : InterruptPayload := {
      prompt := ai_msg
      promptsP := some DEFAULT_PROMPTS
      stage := st.stage
      call_sourceP := pyOrS st.call_name st.call_type }
    match resume with
    | none => .ok (.suspend payload st)
    | some requested =>
      let st := { st with csr_query := requested }
      let user_choice := pyStrip st.csr_query
      let st :=
        if user_choice ∈ DEFAULT_PROMPTS then { st with initial_assign_text := some "" }
        else { st with initial_assign_text := some user_choice }
      .ok (.done st)

/-- node_assign_pcp_ask_termination of src/PCP.py.  member_search and
get_active_pcp run inside one try/except whose handler produces the ERROR
state; the call_horizon call that phrases the question sits outside the
try, so its failure propagates. -/
def node_assign_pcp_ask_termination (memberLookup : Except String MemberPayload)
    (activeLookup : Except String ActivePcp) (llm : Except String String)
    (st : PCPState) (resume : Option String) : Except String NodeOutcome :=
  if st.member_id = "" then
    .ok (.done { st with
      ai_response := "Member information is missing. Please start a new conversation.",
      ai_response_code := some 500, ai_response_type := some "Dialog",
      prompts := [], stage := "ERROR" })
  else if ¬ truthy st.termination_reason then
    match memberLookup with
    | .error _ =>
      let st := mark_api st "get_active_pcp"
      .ok (.done { st with
        ai_response := "Unable to fetch your current PCP details right now. Please try again later.",
        ai_response_code := some 500, ai_response_type := some "Dialog",
        prompts := [], stage := "ERROR" })
    | .ok mp =>
      let st := { st with
        grgr_ck := some (pyStrip (pyStr (pyOrS mp.grgrCk mp.sbsbCk))),
        meme_ck := some (pyStrip (pyStr mp.memeCk)),
        group_id := some (pyStrip (pyStr mp.grpId)),
        subscriber_id := some (pyStrip (pyStr mp.subscriberId)) }
      match activeLookup with
      | .error _ =>
        let st := mark_api st "get_active_pcp"
        .ok (.done { st with
          ai_response := "Unable to fetch your current PCP details right now. Please try again later.",
          ai_response_code := some 500, ai_response_type := some "Dialog",
          prompts := [], stage := "ERROR" })
      | .ok ap =>
        let st := { st with
          active_eff_dt := if truthy ap.effDt then some (pyStrip (optStr ap.effDt)) else none }
        let active_provider_id := if truthy ap.provId then pyStr ap.provId else ""
        let st := { st with active_provider_id := some active_provider_id }
        match llm with
        | .error e => .error e
        | .ok ai_msg =>
          let st := mark_llm st
          let st := { st with
            ai_response := ai_msg, ai_response_code := some 112
            ai_response_type := some "Dialog", prompts := []
            stage := "WAIT_TERMINATION_REASON" }
          match resume with
          | none =>
            .ok (.suspend { prompt := st.ai_response, stage := st.stage,
                            active_provider_idP := some active_provider_id } st)
          | some v => .ok (.done { st with csr_query := pyStrip v })
  else .ok (.done st)

/-- Free-form shortcut block at the top of node_collect_knows_provider:
returns some outcome when that block returns early, none when control falls
through to the yes/no question. -/
def knowsProviderShortcut (assignParse : Except String ParsedProviderInput)
    (st : PCPState) : Option (Except String NodeOutcome) :=
  if st.knows_provider = none ∧ ¬ truthy st.raw_provider_input then
    let candidate := pyStrip (optStr st.initial_assign_text)
    if candidate ≠ "" then
      match assignParse with
      | .error e => some (.error e)
      | .ok parsed =>
        let stv := parsed.search_type
        let pid := stripIfTruthy parsed.provider_id
        let z := stripIfTruthy parsed.zip
        let nm := stripIfTruthy parsed.name
        let city := stripIfTruthy parsed.city
        let st_code := stripIfTruthy parsed.stateCode
        if stv = some "id" ∧ pid ≠ "" then
          some (.ok (.done { st with
            knows_provider := some true
            raw_provider_input := some pid, csr_query := pid
            initial_assign_text := some "" }))
        else if stv = some "zip_only" ∧ z ≠ "" then
          some (.ok (.done { st with
            knows_provider := some true
            raw_provider_input := some z, csr_query := z
            initial_assign_text := some "" }))
        else if (stv = some "name_city_state" ∨ (stv = some "unknown" ∧ nm ≠ "")) ∧
                (nm ≠ "" ∨ city ≠ "" ∨ st_code ≠ "" ∨ z ≠ "") then
          let parts := [nm, city, st_code, z].filter (· ≠ "")
          let normalized := if ¬ parts.isEmpty then String.intercalate ", " parts else candidate
          some (.ok (.done { st with
            knows_provider := some true
            raw_provider_input := some normalized, csr_query := normalized
            initial_assign_text := some "" }))
        else none
    else none
  else none

/-- node_collect_knows_provider of src/PCP.py: possible free-form shortcut,
then the Yes/No question with interrupt; on resume the stripped lower-cased
answer is stored and knows_provider is set to whether it contains yes. -/
def node_collect_knows_provider (assignParse : Except String ParsedProviderInput)
    (llmQ : Except String String) (st : PCPState) (resume : Option String) :
    Except String NodeOutcome :=
  match knowsProviderShortcut assignParse st with
  | some r => r
  | none =>
    if st.knows_provider = none then
      match llmQ with
      | .error e => .error e
      | .ok q =>
        let ai_msg := pyStrip q
        let st := mark_llm st
        let st := { st with
          ai_response := "", prompt_title := some ai_msg
          prompts := ["Yes", "No"], ai_response_code := some 101
          ai_response_type := some "AURA", stage := "ASK_KNOWS_PROVIDER" }
        match resume with
        | none =>
          .ok (.suspend { prompt := ai_msg, promptsP := some st.prompts,
                          stage := st.stage } st)
        | some requested =>
          let answer := pyLower (pyStrip requested)
          let st := { st with
            csr_query := answer
            knows_provider := some (hasSub ['y', 'e', 's'] answer.data) }
          .ok (.done st)
    else .ok (.done st)

/-- node_specialist_ask_service of src/PCP.py: the LLM is asked to repeat the
fixed question and the node overwrites any deviating answer with the exact
template before responding. -/
def node_specialist_ask_service (llm : Except String String) (st : PCPState)
    (resume : Option String) : Except String NodeOutcome :=
  let st := { st with flow := some "specialist" }
  match llm with
  | .error e => .error e
  | .ok raw =>
    let ai_msg := pyStrip raw
    let st := mark_llm st
    let ai_msg := if ai_msg ≠ SPECIALIST_SERVICE_QUESTION then SPECIALIST_SERVICE_QUESTION else ai_msg
    let st := { st with
      ai_response := ai_msg, ai_response_type := some "AURA"
      ai_response_code := some 109, prompt_title := some ""
      prompts := [], stage := "ASK_SPECIALIST_SERVICE" }
    match resume with
    | none => .ok (.suspend { prompt := ai_msg, stage := st.stage } st)
    | some requested =>
      .ok (.done { st with
        specialist_service_specialty := some (pyStrip requested)
        csr_query := "", stage := "SPECIALIST_SERVICE_CAPTURED" })

/-- Continuation of node_specialist_ask_filters after member identifiers are
ensured: CSV default-distance lookup (guarded by try/except), exact-template
enforcement over the LLM output, interrupt. -/
def specialistFiltersCont (defaultDistance : Except String Int)
    (llm : Except String String) (st : PCPState) (resume : Option String) :
    Except String NodeOutcome :=
  let group_id := pyStrip (optStr st.group_id)
  if group_id = "" then
    .ok (.done { st with
      ai_response := "Member group information is missing. Please start a new conversation.",
      ai_response_type := some "AURA", ai_response_code := some 500,
      prompt_title := some "", prompts := [], stage := "ERROR" })
  else
    match defaultDistance with
    | .error _ =>
      .ok (.done { st with
        ai_response := "Unable to determine the default distance right now. Please try again later.",
        ai_response_type := some "AURA", ai_response_code := some 500,
        prompt_title := some "", prompts := [], stage := "ERROR" })
    | .ok d =>
      let expected_html := pyReplace SPECIALIST_FILTERS_TEMPLATE "<<default_distance>>" (toString d)
      match llm with
      | .error e => .error e
      | .ok raw =>
        let ai_msg := pyStrip raw
        let st := mark_llm st
        let ai_msg := if ai_msg ≠ expected_html then expected_html else ai_msg
        let st := { st with
          ai_response := ai_msg, ai_response_type := some "Dialog"
          ai_response_code := some 103, prompt_title := some ""
          prompts := [], stage := "ASK_SPECIALIST_FILTERS" }
        match resume with
        | none => .ok (.suspend { prompt := ai_msg, stage := st.stage } st)
        | some requested =>
          .ok (.done { st with
            specialist_raw_filter_input := some (pyStrip requested)
            csr_query := "", stage := "SPECIALIST_FILTERS_CAPTURED" })

/-- node_specialist_ask_filters of src/PCP.py. -/
def node_specialist_ask_filters (memberLookup : Except String MemberPayload)
    (defaultDistance : Except String Int) (llm : Except String String)
    (st : PCPState) (resume : Option String) : Except String NodeOutcome :=
  let member_id := pyStrip st.member_id
  if member_id = "" then
    .ok (.done { st with
      ai_response := "Member information is missing. Please start a new conversation.",
      ai_response_type := some "AURA", ai_response_code := some 500,
      prompt_title := some "", prompts := [], stage := "ERROR" })
  else if ¬ (truthy st.group_id ∧ truthy st.subscriber_id ∧ truthy st.meme_ck ∧ truthy st.grgr_ck) then
    match memberLookup with
    | .error _ =>
      let st := mark_api st "member_search"
      .ok (.done { st with
        ai_response := "Unable to fetch member details right now. Please try again later.",
        ai_response_type := some "AURA", ai_response_code := some 500,
        prompt_title := some "", prompts := [], stage := "ERROR" })
    | .ok mp =>
      let st := { st with
        grgr_ck := some (pyStrip (pyStr (pyOrS (pyOrS mp.grgrCk mp.sbsbCk) (some "")))),
        meme_ck := some (pyStrip (pyStr (pyOrS mp.memeCk (some "")))),
        group_id := some (pyStrip (pyStr (pyOrS mp.grpId (some "")))),
        subscriber_id := some (pyStrip (pyStr (pyOrS mp.subscriberId (some "")))) }
      specialistFiltersCont defaultDistance llm st resume
  else specialistFiltersCont defaultDistance llm st resume

/-- node_specialist_post_completion of src/PCP.py.  The Horizon yes/no
classification (call_horizon plus the JSON decode with fallback unknown) is
the collaborator parameter; call_horizon itself is unguarded here so its
failure propagates.  The source lines that would clear
specialist_service_specialty and specialist_raw_filter_input are commented
out; only providers_result is reset on the menu path. -/
def node_specialist_post_completion (classifyAnswer : Except String String)
    (st : PCPState) : Except String PCPState :=
  match classifyAnswer with
  | .error e => .error e
  | .ok ans =>
    let st := mark_llm st
    if ans = "no" then
      .ok { st with
        ai_response := "We\x27re closing your request-feel free to return if you need anything else.",
        ai_response_type := some "AURA", ai_response_code := some 101,
        prompt_title := some "", prompts := [], stage := "CLOSED" }
    else
      .ok { st with providers_result := none, csr_query := "", stage := "GO_MENU" }

/-- node_return_to_menu of src/PCP.py (settings MENU_PROMPT_TITLE and
MENU_PROMPTS at their defaults). -/
def node_return_to_menu (st : PCPState) (resume : Option String) : NodeOutcome :=
  let menu_title := "How can I assist you today?"
  let menu_prompts := DEFAULT_PROMPTS
  let st := { st with
    ai_response := "", ai_response_type := some "AURA"
    ai_response_code := some 101, prompt_title := some menu_title
    prompts := menu_prompts, stage := "START" }
  let st := mark_llm st
  match resume with
  | none =>
    .suspend { prompt := "", stage := "RETURN_TO_MENU",
               prompt_titleP := some menu_title, promptsP := some menu_prompts,
               ai_response_codeP := some 101, ai_response_typeP := some "AURA" } st
  | some v => .done { st with csr_query := pyStrip v }

/-! ### Routers and graph edges -/

/-- route_after_provider_followup of src/PCP.py. -/
def route_after_provider_followup (st : PCPState) : String :=
  if st.last_followup_action = some "assign_pcp" then "assign"
  else if st.last_followup_action = some "provider_id_only" then "pid_only"
  else "loop"

/-- path_map of the conditional edges out of provider_interaction. -/
def providerInteractionPathMap : String → Option String
  | "loop" => some "wait_next_followup"
  | "assign" => some "update_pcp"
  | "pid_only" => some "provider_id_only_warning"
  | _ => none

/-- The node the graph runs after provider_interaction, as a function of the
state the router inspects. -/
def nextAfterProviderInteraction (st : PCPState) : Option String :=
  providerInteractionPathMap (route_after_provider_followup st)

/-- The unconditional add_edge calls of the graph builder (END rendered as
the string END). -/
def unconditionalEdge : String → Option String
  | "assign_pcp_ask_termination" => some "collect_termination_reason"
  | "collect_termination_reason" => some "collect_knows_provider"
  | "specialist_ask_service" => some "specialist_ask_filters"
  | "specialist_ask_filters" => some "run_specialist_generic_search"
  | "run_specialist_generic_search" => some "specialist_provider_address"
  | "provider_id_only_warning" => some "provider_interaction"
  | "collect_no_flow_filters" => some "run_provider_search"
  | "collect_provider_input" => some "run_provider_search"
  | "collect_filter_input" => some "run_provider_search"
  | "run_provider_search" => some "provider_interaction"
  | "wait_next_followup" => some "provider_interaction"
  | "update_pcp" => some "END"
  | _ => none

/-! ### Provider search node (node_run_provider_search) -/

/-- map_language_to_code of src/PCP.py (settings.LANGUAGE_CODE_MAP absent). -/
def map_language_to_code (lang_text : Option String) : String :=
  if ¬ truthy lang_text then ""
  else
    let raw := pyLower (pyStrip (optStr lang_text))
    if raw = "" then ""
    else if raw = "spanish" ∨ raw = "spa" ∨ raw = "es" ∨ raw = "español" ∨ raw = "espanol" then "SPA"
    else ""

/-- Python str.split() with no argument: split on whitespace runs, dropping
empty pieces. -/
def pySplitWs (s : String) : List String :=
  ((s.data.splitOnP isWsChar).map (fun l => (⟨l⟩ : String))).filter (· ≠ "")

/-- Network normalization by exact comparison (name / zip / no-flow /
specialist grid branches of src/PCP.py). -/
def netExact (raw : Option String) : String :=
  if truthy raw then
    let raw_up := pyUpper (pyStr raw)
    if raw_up = "IN" ∨ raw_up = "IN NETWORK" then "In Network"
    else if raw_up = "OUT" ∨ raw_up = "OUT NETWORK" then "Out Network"
    else pyStr raw
  else ""

/-- Network normalization by substring (provider-id grid branch). -/
def netSub (raw : Option String) : String :=
  if truthy raw then
    let raw_up := pyUpper (pyStr raw)
    if hasSub "IN".data raw_up.data ∧ ¬ hasSub "OUT".data raw_up.data then "In Network"
    else if hasSub "OUT".data raw_up.data then "Out Network"
    else pyStr raw
  else ""

/-- Grid row built by the name / zip / no-flow / specialist branches. -/
def gridRowExact (p : Provider) : GridRow :=
  { ProviderID := optStr p.providerId
    Name := optStr p.name
    Address := formatAddressFromProvider p
    Network := netExact p.networkStatus
    IsAcceptingNewMembers := p.isAcceptingNewMembers
    PCPAssnInd := pyOrS p.pcpAssnInd none
    DistanceInMiles := pyOrS p.distance_mi none }

/-- Grid row built by the provider-id branch (falls back to the provider id
stored in the state, and matches network status by substring). -/
def gridRowIdBranch (stPid : Option String) (p : Provider) : GridRow :=
  { ProviderID := optStr (pyOrS p.providerId stPid)
    Name := optStr p.name
    Address := formatAddressFromProvider p
    Network := netSub p.networkStatus
    IsAcceptingNewMembers := p.isAcceptingNewMembers
    PCPAssnInd := pyOrS p.pcpAssnInd none
    DistanceInMiles := pyOrS p.distance_mi none }

/-- Arguments of provider_search_by_name that the node supplies. -/
structure NameQuery where
  last_name : String := ""
  group_id : String := ""
  subscriber_id : String := ""
  member_id : String := ""
  first_name : Option String := none
  provider_name : String := ""
  city : Option String := none
  stateCode : Option String := none
  startingLocationZip : Option String := none
  asOfDate : Option String := none
  deriving Repr, DecidableEq

/-- Arguments of provider_search_by_id that the node supplies. -/
structure IdQuery where
  id : String := ""
  group_id : String := ""
  subscriber_id : String := ""
  asOfDate : String := ""
  deriving Repr, DecidableEq

/-- Arguments of provider_generic_search that the nodes supply. -/
structure GenericQuery where
  group_id : String := ""
  subscriber_id : String := ""
  radius_in_miles : Int := 0
  startingLocationZip : String := ""
  asOfDate : Option String := none
  providerLanguage : Option String := none
  providerSex : Option String := none
  serviceSpecialty : Option String := none
  deriving Repr, DecidableEq

/-- The external collaborators that the two search nodes invoke.  Each one is
Except-valued: the LLM parsers propagate a call_horizon failure (their
try/except only guards the JSON decode), the REST searches raise
RuntimeError on failure, and get_default_radius_in_miles raises when the CSV
has no matching row. -/
structure SearchEnv where
  parseProviderInput : String → Except String ParsedProviderInput
  parseZipDate : String → Except String ZipDate
  searchByName : NameQuery → Except String (List Provider)
  searchById : IdQuery → Except String (List Provider)
  genericSearch : GenericQuery → Except String (List Provider)
  defaultRadius : String → String → Except String Int
  parseNoFlow : String → Except String FilterParse
  parseSpecialist : String → Except String FilterParse

/-- Shared tail of every search branch: store the providers, render the grid
JSON, set the SHOW_PROVIDER_LIST response fields and interrupt. -/
def showProviderList (stage : String) (title : Option String) (providers : List Provider)
    (grid : List GridRow) (st : PCPState) (resume : Option String)
    (trace : List String) : Except String (NodeOutcome × List String) :=
  let st := { st with
    providers_result := some providers
    ai_response := renderProvidersJson grid
    prompt_title := title
    prompts := [], ai_response_code := some 107
    ai_response_type := some "AURA", stage := stage }
  match resume with
  | none => .ok (.suspend { prompt := st.ai_response, stage := st.stage } st, trace)
  | some v => .ok (.done { st with csr_query := v }, trace)

/-- node_run_provider_search of src/PCP.py.  The second component of the
result is the ordered list of external collaborator calls the node made. -/
def node_run_provider_search (env : SearchEnv) (st : PCPState) (resume : Option String) :
    Except String (NodeOutcome × List String) :=
  if truthyList st.providers_result then .ok (.done st, [])
  else if st.knows_provider.getD false then
    match env.parseProviderInput (optStr st.raw_provider_input) with
    | .error e => .error e
    | .ok parsed =>
      if parsed.search_type = some "name_city_state" then
        let raw_text := optStr st.raw_provider_input
        let nm := optStr parsed.name
        let city := optStr parsed.city
        let stc := optStr parsed.stateCode
        let st := { st with
          provider_name := some nm
          provider_city := some city
          provider_state := some stc }
        match env.parseZipDate raw_text with
        | .error e => .error e
        | .ok extra =>
          let zip_code := extra.zip
          let as_of_date := extra.as_of_date
          let st := { st with startingLocationZip := zip_code, asOfDate := as_of_date }
          let parts := pySplitWs nm
          let last_name := parts.headD ""
          let first_name := parts[1]?
          let st := mark_api st "provider_search_by_name"
          match env.searchByName {
              last_name := last_name
              group_id := optStr st.group_id
              subscriber_id := optStr st.subscriber_id
              member_id := ""
              first_name := first_name
              provider_name := ""
              city := if city ≠ "" then some city else none
              stateCode := if stc ≠ "" then some stc else none
              startingLocationZip := zip_code
              asOfDate := as_of_date } with
          | .error e => .error e
          | .ok providers =>
            showProviderList "SHOW_PROVIDER_LIST" (some "Select a provider id to update")
              providers (providers.map gridRowExact) st resume
              ["llm_parse_provider_input", "llm_parse_zip_and_date", "provider_search_by_name"]
      else if parsed.search_type = some "zip_only" then
        let raw_text := optStr st.raw_provider_input
        let zip_code := if truthy parsed.zip then optStr parsed.zip else pyStrip raw_text
        match env.parseZipDate raw_text with
        | .error e => .error e
        | .ok extra =>
          let as_of_date := extra.as_of_date
          let st := { st with startingLocationZip := some zip_code, asOfDate := as_of_date }
          let group_id := optStr st.group_id
          let subscriber_id := optStr st.subscriber_id
          if group_id = "" ∨ subscriber_id = "" then
            .ok (.done { st with
              ai_response := "Member details are missing (groupId/subscriberId). Please start a new conversation."
              prompt_title := some "Error"
              prompts := [], ai_response_code := some 500
              ai_response_type := some "Dialog", stage := "ERROR" },
              ["llm_parse_provider_input", "llm_parse_zip_and_date"])
          else
            match env.defaultRadius group_id "PCP" with
            | .error ex =>
              .ok (.done { st with
                ai_response := "Unable to determine default search radius: " ++ ex
                prompt_title := some "Error"
                prompts := [], ai_response_code := some 500
                ai_response_type := some "Dialog", stage := "ERROR" },
                ["llm_parse_provider_input", "llm_parse_zip_and_date", "get_default_radius_in_miles"])
            | .ok radius =>
              let st := mark_api st "provider_generic_search"
              match env.genericSearch {
                  group_id := group_id
                  subscriber_id := subscriber_id
                  radius_in_miles := radius
                  startingLocationZip := (⟨zip_code.data.take 5⟩ : String)
                  asOfDate := as_of_date } with
              | .error e => .error e
              | .ok providers =>
                showProviderList "SHOW_PROVIDER_LIST" (some "Select a provider id to update")
                  providers (providers.map gridRowExact) st resume
                  ["llm_parse_provider_input", "llm_parse_zip_and_date",
                   "get_default_radius_in_miles", "provider_generic_search"]
      else
        let pid := optStr parsed.provider_id
        let st := { st with provider_id := some pid }
        let st := mark_api st "provider_search_by_id"
        match env.searchById {
            id := pid
            group_id := optStr st.group_id
            subscriber_id := optStr st.subscriber_id
            asOfDate := optStr st.asOfDate } with
        | .error e => .error e
        | .ok providers =>
          showProviderList "SHOW_PROVIDER_LIST" (some "Select a provider id to update")
            providers (providers.map (gridRowIdBranch (some pid))) st resume
            ["llm_parse_provider_input", "provider_search_by_id"]
  else
    let raw_text := pyStrip (optStr st.raw_filter_input)
    let group_id := pyStrip (optStr st.group_id)
    let subscriber_id := pyStrip (optStr st.subscriber_id)
    if group_id = "" ∨ subscriber_id = "" then
      .ok (.done { st with
        ai_response := "Member details are missing (groupId/subscriberId). Please start a new conversation."
        prompt_title := some ""
        prompts := [], ai_response_code := some 500
        ai_response_type := some "AURA", stage := "ERROR" }, [])
    else
      match env.defaultRadius group_id "PCP" with
      | .error e => .error e
      | .ok default_radius =>
        match env.parseNoFlow raw_text with
        | .error e => .error e
        | .ok parsed =>
          let radius := default_radius
          let provider_lang := ""
          let provider_sex := ""
          let zip_code : Option String := none
          let as_of_date : Option String := none
          let (radius, provider_lang, provider_sex, zip_code, as_of_date) :=
            if parsed.use_defaults then (radius, provider_lang, provider_sex, zip_code, as_of_date)
            else
              let provider_lang := map_language_to_code parsed.language
              let provider_sex :=
                if parsed.gender = some "M" ∨ parsed.gender = some "F" then optStr parsed.gender else ""
              let zip_code :=
                if truthy parsed.zip ∧ (optStr parsed.zip).data.all (·.isDigit) ∧
                    (optStr parsed.zip).length = 5 then some (optStr parsed.zip) else none
              let as_of_date := parsed.as_of_date
              let radius :=
                match parsed.radius_in_miles with
                | some r => if r > 0 then r else default_radius
                | none => default_radius
              (radius, provider_lang, provider_sex, zip_code, as_of_date)
          let st := mark_api st "provider_generic_search"
          match env.genericSearch {
              group_id := group_id
              subscriber_id := subscriber_id
              radius_in_miles := radius
              startingLocationZip := optStr zip_code
              asOfDate := as_of_date
              providerLanguage := some provider_lang
              providerSex := some provider_sex } with
          | .error e => .error e
          | .ok providers =>
            showProviderList "SHOW_PROVIDER_LIST" (some "Select a provider id to update")
              providers (providers.map gridRowExact) st resume
              ["get_default_radius_in_miles", "llm_parse_no_flow_filters", "provider_generic_search"]

/-- node_run_specialist_generic_search of src/PCP.py.  todayStr is the value
of datetime.now().strftime of YYYYMMDD at the moment the node runs. -/
def node_run_specialist_generic_search (env : SearchEnv) (todayStr : String)
    (st : PCPState) (resume : Option String) : Except String (NodeOutcome × List String) :=
  if truthyList st.providers_result then .ok (.done st, [])
  else
    let group_id := pyStrip (optStr st.group_id)
    let subscriber_id := pyStrip (optStr st.subscriber_id)
    let specialty := pyStrip (optStr st.specialist_service_specialty)
    if group_id = "" ∨ subscriber_id = "" then
      .ok (.done { st with
        ai_response := "Member details are missing (groupId/subscriberId). Please start a new conversation."
        ai_response_type := some "AURA", ai_response_code := some 500
        prompt_title := some "", prompts := [], stage := "ERROR" }, [])
    else if specialty = "" then
      .ok (.done { st with
        ai_response := "Service specialty code is missing. Please enter the service specialty code."
        ai_response_type := some "AURA", ai_response_code := some 109
        prompt_title := some "", prompts := [], stage := "ASK_SPECIALTY" }, [])
    else
      match env.defaultRadius group_id "Specialist" with
      | .error e => .error e
      | .ok default_radius =>
        let raw_text := pyStrip (optStr st.specialist_raw_filter_input)
        match env.parseSpecialist raw_text with
        | .error e => .error e
        | .ok parsed =>
          let radius := default_radius
          let provider_lang := ""
          let provider_sex := ""
          let zip_code := ""
          let as_of_date := todayStr
          let (radius, provider_lang, provider_sex, zip_code, as_of_date) :=
            if parsed.use_defaults then (radius, provider_lang, provider_sex, zip_code, as_of_date)
            else
              let provider_lang := map_language_to_code parsed.language
              let provider_sex :=
                if parsed.gender = some "M" ∨ parsed.gender = some "F" then optStr parsed.gender else ""
              let zip_code :=
                if truthy parsed.zip ∧ (optStr parsed.zip).data.all (·.isDigit) ∧
                    (optStr parsed.zip).length = 5 then optStr parsed.zip else ""
              let as_of_date :=
                match parsed.as_of_date with
                | some d => if pyStrip d ≠ "" then pyStrip d else todayStr
                | none => todayStr
              let radius :=
                match parsed.radius_in_miles with
                | some r => if r > 0 then r else default_radius
                | none => default_radius
              (radius, provider_lang, provider_sex, zip_code, as_of_date)
          let st := mark_api st "provider_generic_search"
          match env.genericSearch {
              group_id := group_id
              subscriber_id := subscriber_id
              radius_in_miles := radius
              startingLocationZip := zip_code
              asOfDate := some as_of_date
              providerLanguage := some provider_lang
              providerSex := some provider_sex
              serviceSpecialty := some specialty } with
          | .error e => .error e
          | .ok providers =>
            showProviderList "SHOW_SPECIALIST_PROVIDER_LIST" (some "")
              providers (providers.map gridRowExact) st resume
              ["get_default_radius_in_miles", "llm_parse_specialist_filters", "provider_generic_search"]

/-! ### PCP update node (node_update_pcp) -/

/-- Arguments of make_change_family_broker_request. -/
structure SoapReq where
  grgr_ck : String := ""
  meme_ck : String := ""
  pcp_type : String := ""
  prpr_id : String := ""
  eff_dt : String := ""
  term_dt : String := ""
  mctr_trsn : String := ""
  mctr_orsn : String := ""
  deriving Repr, DecidableEq

/-- One external side-effecting call made by node_update_pcp. -/
inductive SoapCall where
  | executeEx (req : SoapReq)
  | verifyRead
  deriving Repr, DecidableEq

/-- Collaborators and configuration of node_update_pcp.  fmtDate renders a
calendar day (as a day number, today and today+1) through
format_date_mmddyyyy; fmtEffDate renders the stored active effective date
string; shortError is extract_short_error of the SOAP client. -/
structure UpdateEnv where
  soapConfigured : Bool := true
  pcpType : Option String := none
  mctrOrsn : Option String := none
  callExecuteEx : SoapReq → Except String String
  verifyActivePcp : Except String (Option String)
  fmtDate : Nat → String
  fmtEffDate : String → String
  shortError : String → String

/-- Terminal ERROR state written by the exception handler of node_update_pcp. -/
def updatePcpError (st : PCPState) (msg : String) : PCPState :=
  { st with
    ai_response := msg
    ai_response_type := some "AURA", ai_response_code := some 500
    prompt_title := some "", prompts := [], stage := "ERROR"
    last_followup_action := some "error" }

/-- node_update_pcp of src/PCP.py: terminate the current PCP (when there is
one) with termination date today, add the new PCP with effective date
tomorrow, then verify by reading the active PCP back; any failure or a
mismatching read-back falls into the except handler producing the terminal
ERROR/500 state.  The trace lists the side-effecting calls in order. -/
def node_update_pcp (env : UpdateEnv) (today : Nat) (st : PCPState) :
    PCPState × List SoapCall :=
  if ¬ env.soapConfigured then
    ({ st with
      ai_response := "SOAP services are not configured."
      ai_response_type := some "AURA", ai_response_code := some 500
      prompt_title := some "", prompts := [], stage := "ERROR"
      last_followup_action := some "error" }, [])
  else
    let new_pid := pyStrip (pyStr (pyOrS st.last_selected_provider_id (some "")))
    if new_pid = "" then
      ({ st with
        ai_response := "Unable to identify the provider to assign. Please select a Provider ID from the list."
        ai_response_type := some "AURA", ai_response_code := some 101
        prompt_title := some "", prompts := [], stage := "PROVIDER_FOLLOWUP_RESPONSE"
        last_followup_action := some "other" }, [])
    else
      let meme_ck := pyStrip (optStr st.meme_ck)
      let grgr_ck := pyStrip (optStr st.grgr_ck)
      let curr_pid := pyStrip (optStr st.active_provider_id)
      let trsn := pyStrip (optStr st.termination_reason)
      if ¬ (meme_ck ≠ "" ∧ grgr_ck ≠ "" ∧ trsn ≠ "") then
        ({ st with
          ai_response := "Missing required member/termination details to update PCP."
          ai_response_type := some "AURA", ai_response_code := some 500
          prompt_title := some "", prompts := [], stage := "ERROR"
          last_followup_action := some "error" }, [])
      else
        let today_mmddyyyy := env.fmtDate today
        let tommorrow_mmddyyyy := env.fmtDate (today + 1)
        let active_eff := pyStrip (optStr st.active_eff_dt)
        let prev_eff_mmddyyyy :=
          if active_eff ≠ "" then env.fmtEffDate active_eff else tommorrow_mmddyyyy
        if ¬ (truthy env.pcpType ∧ truthy env.mctrOrsn) then
          ({ st with
            ai_response := "PCP_TYPE / MCTR_ORSN missing from settings."
            ai_response_type := some "AURA", ai_response_code := some 500
            prompt_title := some "", prompts := [], stage := "ERROR"
            last_followup_action := some "error" }, [])
        else
          let pcp_type := optStr env.pcpType
          let mctr_orsn := optStr env.mctrOrsn
          let termPhase : Except (PCPState × List SoapCall) (PCPState × List SoapCall) :=
            if curr_pid ≠ "" then
              let termReq : SoapReq :=
                { grgr_ck := grgr_ck, meme_ck := meme_ck, pcp_type := pcp_type
                  prpr_id := curr_pid
                  eff_dt := prev_eff_mmddyyyy, term_dt := today_mmddyyyy
                  mctr_trsn := trsn, mctr_orsn := mctr_orsn }
              let st := mark_api st "call_execute_ex"
              match env.callExecuteEx termReq with
              | .error te =>
                .error (updatePcpError st
                  ("An error occurred while updating PCP: Terminate step failed: " ++ env.shortError te),
                  [.executeEx termReq])
              | .ok _ => .ok (st, [.executeEx termReq])
            else .ok (st, [])
          match termPhase with
          | .error r => r
          | .ok (st, tr) =>
            let addReq : SoapReq :=
              { grgr_ck := grgr_ck, meme_ck := meme_ck, pcp_type := pcp_type
                prpr_id := new_pid
                eff_dt := tommorrow_mmddyyyy, term_dt := ""
                mctr_trsn := "", mctr_orsn := "" }
            let st := mark_api st "call_execute_ex"
            let tr := tr ++ [.executeEx addReq]
            match env.callExecuteEx addReq with
            | .error ae =>
              (updatePcpError st
                ("An error occurred while updating PCP: Assign step failed: " ++ env.shortError ae), tr)
            | .ok _ =>
              let tr := tr ++ [.verifyRead]
              match env.verifyActivePcp with
              | .error ve =>
                (updatePcpError st ("An error occurred while updating PCP: " ++ ve), tr)
              | .ok vOpt =>
                let verified_pid := if truthy vOpt then pyStrip (optStr vOpt) else ""
                if verified_pid ≠ new_pid then
                  (updatePcpError st
                    "An error occurred while updating PCP: PCP update could not be verified. Please try again.", tr)
                else
                  let nmval :=
                    match st.selected_provider_snapshot with
                    | some p => if truthy p.name then optStr p.name else new_pid
                    | none => new_pid
                  let phone :=
                    match st.selected_provider_snapshot with
                    | some p => optStr p.phone
                    | none => ""
                  let addr :=
                    match st.selected_provider_snapshot with
                    | some p => formatAddressFromProvider p
                    | none => ""
                  let eff_disp := env.fmtDate (today + 1)
                  let msg :=
                    "New PCP has assigned:<br><br>" ++
                    "Name: <b>" ++ nmval ++ "</b>.<br>" ++
                    "Address: <b>" ++ addr ++ "</b>.<br>" ++
                    "Phome Number: <b>" ++ phone ++ "</b>.<br>" ++
                    "Effective Date: <b>" ++ eff_disp ++ "</b>.<br><br>" ++
                    "Please allow upto 7 calendar days to receive your new card.<br><br>" ++
                    "Do you need further assistance?"
                  ({ st with
                    ai_response := ""
                    ai_response_type := some "AURA", ai_response_code := some 101
                    prompt_title := some msg
                    prompts := ["Appointment Scheduling", "Confirmation Fax"]
                    stage := "COMPLETED"
                    last_followup_action := some "assign_pcp" }, tr)

/-! ### Chat endpoint response mapping (the /chat handler of src/PCP.py) -/

/-- The stable turn-response record returned by base_response. -/
structure ChatResponse where
  APIStatus : String := "success"
  APISessionId : String := ""
  CSRQuery : String := ""
  AIResponse : String := ""
  AIResponseType : String := "AURA"
  AIResponseCode : Int := 101
  AIResponseDateTime : String := ""
  CurrentStage : String := ""
  PromptTitle : String := "How can I assist you today?"
  Prompts : List String := []
  CallSource : String := ""
  deriving Repr, DecidableEq

/-- base_response of src/PCP.py (APIStatus success on every /chat branch). -/
def base_response (thread_id ai_response stage csr_query : String)
    (prompts : List String) (ai_response_code : Int) (ai_response_type : String)
    (prompt_title : String) (call_source : String) (now : String) : ChatResponse :=
  { APIStatus := "success"
    APISessionId := thread_id
    CSRQuery := csr_query
    AIResponse := ai_response
    AIResponseType := ai_response_type
    AIResponseCode := ai_response_code
    AIResponseDateTime := now
    CurrentStage := stage
    PromptTitle := prompt_title
    Prompts := prompts
    CallSource := call_source }

/-- stage_from_node of the /chat handler: the stage key of the interrupt
payload, defaulting to the stage of the state at suspension. -/
def chatStageFromNode (payload : InterruptPayload) (last_state : PCPState) : String :=
  if payload.stage ≠ "" then payload.stage else last_state.stage

/-- The if/elif dispatch of the /chat handler on stage_from_node, producing
the turn response for a suspension. -/
def chatRespond (stage_from_node : String) (payload : InterruptPayload)
    (last_state : PCPState) (thread_id message call_source now : String) : ChatResponse :=
  let prompt := payload.prompt
  if stage_from_node = "WAIT_TERMINATION_REASON" then
    base_response thread_id prompt "WAIT_TERMINATION_REASON" message [] 112 "AURA" "" call_source now
  else if stage_from_node = "ASK_KNOWS_PROVIDER" then
    let question_title := if prompt ≠ "" then prompt else optStr last_state.prompt_title
    let prompts_list := if ¬ last_state.prompts.isEmpty then last_state.prompts else ["Yes", "No"]
    base_response thread_id "" "ASK_KNOWS_PROVIDER" message prompts_list 101 "AURA" question_title call_source now
  else if stage_from_node = "ASK_PROVIDER_INPUT" then
    let ai := if prompt ≠ "" then prompt else last_state.ai_response
    base_response thread_id ai "ASK_PROVIDER_INPUT" message [] 103 "Dialog" "" call_source now
  else if stage_from_node = "SHOW_PROVIDER_LIST" then
    let ai := if prompt ≠ "" then prompt else last_state.ai_response
    base_response thread_id ai "SHOW_PROVIDER_LIST" message [] 107 "AURA" "Select a provider id to update" call_source now
  else if stage_from_node = "WAIT_NEXT_FOLLOWUP" then
    base_response thread_id last_state.ai_response last_state.stage message last_state.prompts
      (last_state.ai_response_code.getD 101) ((last_state.ai_response_type).getD "AURA")
      (optStr last_state.prompt_title) call_source now
  else if stage_from_node = "ASK_NO_FLOW_FILTERS" then
    let ai := if prompt ≠ "" then prompt else last_state.ai_response
    let p1 := payload.promptsP.getD []
    let prompts_list :=
      if ¬ p1.isEmpty then p1
      else if ¬ last_state.prompts.isEmpty then last_state.prompts
      else ["Please proceed with the default values."]
    base_response thread_id ai "ASK_NO_FLOW_FILTERS" message prompts_list 103 "Dialog" "" call_source now
  else if stage_from_node = "ASK_SPECIALIST_SERVICE" then
    let ai0 :=
      if prompt ≠ "" then prompt
      else if last_state.ai_response ≠ "" then last_state.ai_response
      else SPECIALIST_SERVICE_QUESTION
    let ai := if ai0 ≠ SPECIALIST_SERVICE_QUESTION then SPECIALIST_SERVICE_QUESTION else ai0
    base_response thread_id ai "ASK_SPECIALIST_SERVICE" message [] 109 "AURA" "" call_source now
  else if stage_from_node = "ASK_SPECIALIST_FILTERS" then
    let ai := if prompt ≠ "" then prompt else last_state.ai_response
    base_response thread_id ai "ASK_SPECIALIST_FILTERS" message [] 103 "Dialog" "" call_source now
  else if stage_from_node = "PROVIDER_ID_ONLY_WARNING" then
    base_response thread_id prompt "PROVIDER_ID_ONLY_WARNING" message [] 101 "AURA" "" call_source now
  else if stage_from_node = "SHOW_SPECIALIST_PROVIDER_LIST" then
    let ai := if prompt ≠ "" then prompt else last_state.ai_response
    base_response thread_id ai "SHOW_SPECIALIST_PROVIDER_LIST" message [] 107 "AURA" "" call_source now
  else if stage_from_node = "SPECIALIST_PROVIDER_FOLLOWUP_RESPONSE" then
    let ai := if prompt ≠ "" then prompt else last_state.ai_response
    base_response thread_id ai "SPECIALIST_PROVIDER_FOLLOWUP_RESPONSE" message [] 101 "AURA" "" call_source now
  else if stage_from_node = "SPECIALIST_COMPLETED" then
    let ai := if prompt ≠ "" then prompt else last_state.ai_response
    let ptitle :=
      if truthy payload.prompt_titleP then optStr payload.prompt_titleP
      else if truthy last_state.prompt_title then optStr last_state.prompt_title
      else "Do you need further assistance?"
    let p1 := payload.promptsP.getD []
    let pr :=
      if ¬ p1.isEmpty then p1
      else if ¬ last_state.prompts.isEmpty then last_state.prompts
      else ["Yes", "No"]
    base_response thread_id ai "COMPLETED" message pr 110 "AURA" ptitle call_source now
  else if stage_from_node = "RETURN_TO_MENU" then
    let ptitle :=
      if truthy payload.prompt_titleP then optStr payload.prompt_titleP
      else if truthy last_state.prompt_title then optStr last_state.prompt_title
      else "How can I assist you today?"
    let p1 := payload.promptsP.getD []
    let pr :=
      if ¬ p1.isEmpty then p1
      else if ¬ last_state.prompts.isEmpty then last_state.prompts
      else DEFAULT_PROMPTS
    base_response thread_id "" "START" message pr 101 "AURA" ptitle call_source now
  else
    let stage := if stage_from_node ≠ "" then stage_from_node else last_state.stage
    base_response thread_id last_state.ai_response stage message last_state.prompts
      (last_state.ai_response_code.getD 101) ((last_state.ai_response_type).getD "AURA")
      (optStr last_state.prompt_title) call_source now

/-! ### Engine and state store

Modelled from the spec: the Engine and StateStore of sections 2, 4.1 and 4.2
of the specification (in the reference program this is the LangGraph runtime
with the InMemorySaver checkpointer compiled at graph = builder.compile and
driven by graph.stream with Command resume in the /chat endpoint; that
runtime is library code not present under src/).  The StateStore keeps
(state, resume position) per thread id; the Engine executes steps from a
position, persisting the suspending step name as the new resume position.
Elapsed wall-clock time is passed in and deliberately ignored: a suspended
conversation has no timeout. -/

structure FlowGraph where
  stepOf : String → Option (PCPState → Option String → NodeOutcome)
  nextOf : String → PCPState → Option String

inductive EngineResult where
  | suspendedAt (stepName : String) (payload : InterruptPayload) (st : PCPState)
  | finished (st : PCPState)
  | stuck
  deriving Repr, DecidableEq

/-- Modelled from the spec: run the flow graph starting at a step name (the
resume position), feeding the resume value to the first step only, until a
step suspends or there is no outgoing transition.  Returns the ordered list
of steps entered together with the result. -/
def runFrom (g : FlowGraph) : Nat → String → PCPState → Option String →
    List String × EngineResult
  | 0, _, _, _ => ([], .stuck)
  | fuel + 1, nodeName, st, resume =>
    match g.stepOf nodeName with
    | none => ([nodeName], .stuck)
    | some f =>
      match f st resume with
      | .suspend p st2 => ([nodeName], .suspendedAt nodeName p st2)
      | .done st2 =>
        match g.nextOf nodeName st2 with
        | none => ([nodeName], .finished st2)
        | some nxt =>
          let r := runFrom g fuel nxt st2 none
          (nodeName :: r.1, r.2)

/-- Modelled from the spec: keyed persistence of (state, resume position)
per thread id. -/
def StateStore : Type := List (String × PCPState × String)

def loadThread (store : StateStore) (tid : String) : Option (PCPState × String) :=
  match store.find? (fun e => e.1 == tid) with
  | some e => some e.2
  | none => none

def saveThread (store : StateStore) (tid : String) (st : PCPState) (pos : String) :
    StateStore :=
  (tid, st, pos) :: store.filter (fun e => !(e.1 == tid))

/-- Modelled from the spec: one /chat turn of the Engine for a suspended
thread: load the recorded resume position, re-enter the graph exactly there
with the resume value, and persist the new position.  elapsedMillis is the
wall-clock time since the suspension and is ignored. -/
def engineResume (g : FlowGraph) (fuel : Nat) (store : StateStore) (tid : String)
    (resumeVal : String) (_elapsedMillis : Nat) :
    Option (List String × EngineResult × StateStore) :=
  match loadThread store tid with
  | none => none
  | some (st, pos) =>
    let r := runFrom g fuel pos st (some resumeVal)
    let store2 :=
      match r.2 with
      | .suspendedAt n _ st2 => saveThread store tid st2 n
      | .finished st2 => saveThread store tid st2 "END"
      | .stuck => store
    some (r.1, r.2, store2)

/-! ### Concrete instances used to exercise the definitions -/

/-- A search environment whose collaborators all succeed with empty data;
used to evaluate the search nodes on concrete states. -/
def trivialSearchEnv : SearchEnv :=
  { parseProviderInput := fun _ => .ok {}
    parseZipDate := fun _ => .ok {}
    searchByName := fun _ => .ok []
    searchById := fun _ => .ok []
    genericSearch := fun _ => .ok []
    defaultRadius := fun _ _ => .ok 25
    parseNoFlow := fun _ => .ok {}
    parseSpecialist := fun _ => .ok {} }

/-- A search environment whose LLM parser classifies the input as a
name/city/state query and whose name-search REST collaborator raises. -/
def nameSearchFailEnv : SearchEnv :=
  { trivialSearchEnv with
    parseProviderInput := fun _ => .ok { search_type := some "name_city_state", name := some "John" }
    searchByName := fun _ => .error "search down" }

/-- An update environment whose SOAP calls succeed and whose verification
read returns provider 87654321. -/
def happyUpdateEnv : UpdateEnv :=
  { soapConfigured := true
    pcpType := some "P"
    mctrOrsn := some "OR"
    callExecuteEx := fun _ => .ok "ok"
    verifyActivePcp := .ok (some "87654321")
    fmtDate := fun n => "day" ++ toString n
    fmtEffDate := fun s => s
    shortError := fun s => s }

/-- A state ready for node_update_pcp with provider 87654321 selected. -/
def updateReadyState : PCPState :=
  { last_selected_provider_id := some "87654321"
    meme_ck := some "M1", grgr_ck := some "G1"
    termination_reason := some "new PCP"
    active_provider_id := some "11111111" }

/-- A search environment whose LLM parser classifies the input as a
provider-id query. -/
def idSearchEnv : SearchEnv :=
  { trivialSearchEnv with
    parseProviderInput := fun _ => .ok { search_type := some "id", provider_id := some "12345678" } }

/-- The payload node_collect_knows_provider suspends with when the question
collaborator returns Q. -/
def askKnowsPayload : InterruptPayload :=
  { prompt := pyStrip "Q", promptsP := some ["Yes", "No"], stage := "ASK_KNOWS_PROVIDER" }

/-- The state node_collect_knows_provider holds at that suspension, starting
from the empty state. -/
def askKnowsState : PCPState :=
  { mark_llm {} with
    ai_response := "", prompt_title := some (pyStrip "Q")
    prompts := ["Yes", "No"], ai_response_code := some 101
    ai_response_type := some "AURA", stage := "ASK_KNOWS_PROVIDER" }

/-- The payload node_run_provider_search suspends with in the provider-id
branch when the search returns no rows. -/
def showListPayload : InterruptPayload :=
  { prompt := renderProvidersJson [], stage := "SHOW_PROVIDER_LIST" }

/-- The state node_run_provider_search holds at that suspension. -/
def showListState : PCPState :=
  { mark_api
      { ({ knows_provider := some true, raw_provider_input := some "12345678" } : PCPState) with
        provider_id := some "12345678" } "provider_search_by_id" with
    providers_result := some []
    ai_response := renderProvidersJson []
    prompt_title := some "Select a provider id to update"
    prompts := [], ai_response_code := some 107
    ai_response_type := some "AURA", stage := "SHOW_PROVIDER_LIST" }

/-- A one-step flow graph: the step named ask suspends on first entry and
consumes the resume value on re-entry. -/
def demoGraph : FlowGraph :=
  { stepOf := fun n =>
      if n = "ask" then
        some (fun st r =>
          match r with
          | none => .suspend { prompt := "q", stage := "ask" } st
          | some v => .done { st with csr_query := v })
      else none
    nextOf := fun _ _ => none }

/-- A store with one thread parked at the step named ask. -/
def demoStore : StateStore := [("t1", ({} : PCPState), "ask")]

/-! ### General lemmas -/

theorem optStr_some (s : String) : optStr (some s) = s := rfl

theorem renderProvidersJson_ne_empty (rows : List GridRow) :
    renderProvidersJson rows ≠ "" := by
  intro h
  have hd := congrArg String.data h
  simp only [renderProvidersJson] at hd
  rw [String.data_append, String.data_append] at hd
  simp at hd

/-! ### C10: collect_termination_reason -/

/-- C10 counterexample: with termination_reason unset and the non-empty
whitespace-only csr_query, node_collect_termination_reason neither moves the
text into termination_reason nor clears csr_query: the state is returned
unchanged, contradicting the claim for this non-empty csr_query. -/
theorem C10_counterexample :
    ({ csr_query := " " } : PCPState).csr_query ≠ "" ∧
    ({ csr_query := " " } : PCPState).termination_reason = none ∧
    node_collect_termination_reason { csr_query := " " } = { csr_query := " " } := by
  refine ⟨by decide, rfl, ?_⟩
  rfl

/-- C10 (amended): node_collect_termination_reason never overwrites a
populated (non-empty) termination_reason and returns the state unchanged;
when termination_reason is unset and csr_query strips to non-empty text, the
stripped csr_query is moved into termination_reason and csr_query is
cleared, every other field unchanged; when csr_query is empty or whitespace
only the state is returned unchanged. -/
theorem C10_termination_reason_moves (st : PCPState) :
    (truthy st.termination_reason = true → node_collect_termination_reason st = st) ∧
    (truthy st.termination_reason = false → pyStrip st.csr_query ≠ "" →
      node_collect_termination_reason st =
        { st with termination_reason := some (pyStrip st.csr_query), csr_query := "" }) ∧
    (truthy st.termination_reason = false → pyStrip st.csr_query = "" →
      node_collect_termination_reason st = st) := by
  refine ⟨fun h => ?_, fun h h2 => ?_, fun h h2 => ?_⟩
  · simp [node_collect_termination_reason, h]
  · simp [node_collect_termination_reason, h, h2]
  · simp [node_collect_termination_reason, h, h2]

/-- C10 witness: the amended theorem applied at a concrete state. -/
theorem C10_witness :
    node_collect_termination_reason { csr_query := " hello " } =
      { ({ csr_query := " hello " } : PCPState) with
        termination_reason := some (pyStrip " hello "), csr_query := "" } :=
  (C10_termination_reason_moves { csr_query := " hello " }).2.1 (by decide) (by decide)

/-! ### C4: follow-up routing after the provider list -/

/-- C4: the conditional edges out of provider_interaction reach update_pcp
exactly when last_followup_action is assign_pcp; the provider_id_only
classification routes to the provider_id_only_warning step, whose
unconditional edge returns to provider_interaction. -/
theorem C4_followup_routing (st : PCPState) :
    (nextAfterProviderInteraction st = some "update_pcp" ↔
      st.last_followup_action = some "assign_pcp") ∧
    (st.last_followup_action = some "provider_id_only" →
      nextAfterProviderInteraction st = some "provider_id_only_warning") ∧
    unconditionalEdge "provider_id_only_warning" = some "provider_interaction" := by
  refine ⟨?_, fun h => ?_, rfl⟩
  · unfold nextAfterProviderInteraction route_after_provider_followup providerInteractionPathMap
    by_cases h1 : st.last_followup_action = some "assign_pcp"
    · simp [h1]
    · by_cases h2 : st.last_followup_action = some "provider_id_only" <;> simp [h1, h2]
  · have h1 : st.last_followup_action ≠ some "assign_pcp" := by simp [h]
    unfold nextAfterProviderInteraction route_after_provider_followup providerInteractionPathMap
    simp [h, h1]

/-- C4 witness: routing evaluated at a concrete provider_id_only state. -/
theorem C4_witness :
    nextAfterProviderInteraction { last_followup_action := some "provider_id_only" } =
      some "provider_id_only_warning" :=
  (C4_followup_routing { last_followup_action := some "provider_id_only" }).2.1 rfl

/-! ### C3: exact-template enforcement in the specialist prompts -/

/-- C3: whatever the LLM collaborator returns, node_specialist_ask_service
responds with the configured specialist-service question byte for byte, and
node_specialist_ask_filters (when member identifiers are present and the CSV
default-distance lookup yields d) responds with the configured filters
template with exactly the default_distance token substituted by d. -/
theorem C3_exact_templates :
    (∀ llm st r, ∃ out,
      node_specialist_ask_service (.ok llm) st r = .ok out ∧
      out.state.ai_response = SPECIALIST_SERVICE_QUESTION ∧
      (∀ p st2, out = .suspend p st2 → p.prompt = SPECIALIST_SERVICE_QUESTION)) ∧
    (∀ mem d llm st r,
      pyStrip st.member_id ≠ "" →
      (truthy st.group_id = true ∧ truthy st.subscriber_id = true ∧
       truthy st.meme_ck = true ∧ truthy st.grgr_ck = true) →
      pyStrip (optStr st.group_id) ≠ "" →
      ∃ out,
        node_specialist_ask_filters mem (.ok d) (.ok llm) st r = .ok out ∧
        out.state.ai_response =
          pyReplace SPECIALIST_FILTERS_TEMPLATE "<<default_distance>>" (toString d) ∧
        (∀ p st2, out = .suspend p st2 →
          p.prompt = pyReplace SPECIALIST_FILTERS_TEMPLATE "<<default_distance>>" (toString d))) := by
  constructor
  · intro llm st r
    have hai : (if pyStrip llm ≠ SPECIALIST_SERVICE_QUESTION
          then SPECIALIST_SERVICE_QUESTION else pyStrip llm) = SPECIALIST_SERVICE_QUESTION := by
      by_cases hq : pyStrip llm = SPECIALIST_SERVICE_QUESTION <;> simp [hq]
    cases r with
    | none =>
      refine ⟨.suspend { prompt := SPECIALIST_SERVICE_QUESTION, stage := "ASK_SPECIALIST_SERVICE" }
          { mark_llm { st with flow := some "specialist" } with
            ai_response := SPECIALIST_SERVICE_QUESTION, ai_response_type := some "AURA"
            ai_response_code := some 109, prompt_title := some ""
            prompts := [], stage := "ASK_SPECIALIST_SERVICE" }, ?_, by simp [NodeOutcome.state], ?_⟩
      · simp [node_specialist_ask_service, hai]
      · intro p st2 h
        cases h
        rfl
    | some v =>
      refine ⟨.done { mark_llm { st with flow := some "specialist" } with
            ai_response := SPECIALIST_SERVICE_QUESTION, ai_response_type := some "AURA"
            ai_response_code := some 109, prompt_title := some ""
            prompts := [], stage := "SPECIALIST_SERVICE_CAPTURED"
            specialist_service_specialty := some (pyStrip v)
            csr_query := "" }, ?_, by simp [NodeOutcome.state], ?_⟩
      · simp [node_specialist_ask_service, hai]
      · intro p st2 h
        cases h
  · intro mem d llm st r hm h4 hg
    obtain ⟨hg1, hs1, hk1, hr1⟩ := h4
    have hcont : node_specialist_ask_filters mem (.ok d) (.ok llm) st r =
        specialistFiltersCont (.ok d) (.ok llm) st r := by
      simp [node_specialist_ask_filters, hm, hg1, hs1, hk1, hr1]
    have hai : (if pyStrip llm ≠ pyReplace SPECIALIST_FILTERS_TEMPLATE "<<default_distance>>" (toString d)
          then pyReplace SPECIALIST_FILTERS_TEMPLATE "<<default_distance>>" (toString d)
          else pyStrip llm) =
        pyReplace SPECIALIST_FILTERS_TEMPLATE "<<default_distance>>" (toString d) := by
      by_cases hq : pyStrip llm =
          pyReplace SPECIALIST_FILTERS_TEMPLATE "<<default_distance>>" (toString d) <;> simp [hq]
    rw [hcont]
    cases r with
    | none =>
      refine ⟨.suspend
          { prompt := pyReplace SPECIALIST_FILTERS_TEMPLATE "<<default_distance>>" (toString d)
            stage := "ASK_SPECIALIST_FILTERS" }
          { mark_llm st with
            ai_response := pyReplace SPECIALIST_FILTERS_TEMPLATE "<<default_distance>>" (toString d)
            ai_response_type := some "Dialog"
            ai_response_code := some 103, prompt_title := some ""
            prompts := [], stage := "ASK_SPECIALIST_FILTERS" }, ?_, by simp [NodeOutcome.state], ?_⟩
      · unfold specialistFiltersCont
        rw [if_neg hg]
        simp [hai]
      · intro p st2 h
        cases h
        rfl
    | some v =>
      refine ⟨.done { mark_llm st with
            ai_response := pyReplace SPECIALIST_FILTERS_TEMPLATE "<<default_distance>>" (toString d)
            ai_response_type := some "Dialog"
            ai_response_code := some 103, prompt_title := some ""
            prompts := [], stage := "SPECIALIST_FILTERS_CAPTURED"
            specialist_raw_filter_input := some (pyStrip v)
            csr_query := "" }, ?_, by simp [NodeOutcome.state], ?_⟩
      · unfold specialistFiltersCont
        rw [if_neg hg]
        simp [hai]
      · intro p st2 h
        cases h

/-- C3 witness: both specialist prompts evaluated with a deviating LLM
answer at a concrete member state and default distance 25. -/
theorem C3_witness :
    (∃ out,
      node_specialist_ask_service (.ok "something else") {} none = .ok out ∧
      out.state.ai_response = SPECIALIST_SERVICE_QUESTION ∧
      (∀ p st2, out = .suspend p st2 → p.prompt = SPECIALIST_SERVICE_QUESTION)) ∧
    (∃ out,
      node_specialist_ask_filters (.ok {}) (.ok 25) (.ok "something else")
        { member_id := "M100", group_id := some "G", subscriber_id := some "S"
          meme_ck := some "MC", grgr_ck := some "GC" } none = .ok out ∧
      out.state.ai_response =
        pyReplace SPECIALIST_FILTERS_TEMPLATE "<<default_distance>>" (toString (25 : Int)) ∧
      (∀ p st2, out = .suspend p st2 →
        p.prompt = pyReplace SPECIALIST_FILTERS_TEMPLATE "<<default_distance>>" (toString (25 : Int)))) :=
  ⟨C3_exact_templates.1 "something else" {} none,
   C3_exact_templates.2 (.ok {}) 25 "something else"
     { member_id := "M100", group_id := some "G", subscriber_id := some "S"
       meme_ck := some "MC", grgr_ck := some "GC" } none
     (by decide) ⟨by decide, by decide, by decide, by decide⟩ (by decide)⟩

/-! ### C8: state reset on returning to the menu -/

/-- C8 counterexample: after a completed specialist conversation the user
continues (answer classified yes); node_specialist_post_completion clears
providers_result but retains specialist_service_specialty and
specialist_raw_filter_input, so not all specialist-only fields are cleared. -/
theorem C8_counterexample :
    ∃ st2,
      node_specialist_post_completion (.ok "yes")
        { specialist_service_specialty := some "S204"
          specialist_raw_filter_input := some "defaults"
          providers_result := some [{}] } = .ok st2 ∧
      st2.providers_result = none ∧
      st2.specialist_service_specialty = some "S204" ∧
      st2.specialist_raw_filter_input = some "defaults" := by
  exact ⟨_, rfl, rfl, rfl, rfl⟩

/-- C8 (amended): on the menu-restart path (any classification other than
no), providers_result is cleared and csr_query emptied, while
specialist_service_specialty and specialist_raw_filter_input are retained
(their clearing is commented out in the source), and the member identity
fields are retained unchanged; node_return_to_menu preserves all of these. -/
theorem C8_menu_restart_reset (st : PCPState) (ans : String) (h : ans ≠ "no") :
    ∃ st2, node_specialist_post_completion (.ok ans) st = .ok st2 ∧
      st2.providers_result = none ∧ st2.csr_query = "" ∧ st2.stage = "GO_MENU" ∧
      st2.specialist_service_specialty = st.specialist_service_specialty ∧
      st2.specialist_raw_filter_input = st.specialist_raw_filter_input ∧
      st2.member_id = st.member_id ∧ st2.group_id = st.group_id ∧
      st2.subscriber_id = st.subscriber_id ∧ st2.meme_ck = st.meme_ck ∧
      st2.grgr_ck = st.grgr_ck ∧ st2.thread_id = st.thread_id ∧
      (∀ v,
        (node_return_to_menu st2 (some v)).state.providers_result = none ∧
        (node_return_to_menu st2 (some v)).state.specialist_service_specialty =
          st.specialist_service_specialty ∧
        (node_return_to_menu st2 (some v)).state.specialist_raw_filter_input =
          st.specialist_raw_filter_input ∧
        (node_return_to_menu st2 (some v)).state.member_id = st.member_id ∧
        (node_return_to_menu st2 (some v)).state.group_id = st.group_id ∧
        (node_return_to_menu st2 (some v)).state.subscriber_id = st.subscriber_id ∧
        (node_return_to_menu st2 (some v)).state.meme_ck = st.meme_ck ∧
        (node_return_to_menu st2 (some v)).state.grgr_ck = st.grgr_ck ∧
        (node_return_to_menu st2 (some v)).state.thread_id = st.thread_id) := by
  refine ⟨{ mark_llm st with providers_result := none, csr_query := "", stage := "GO_MENU" },
    ?_, rfl, rfl, rfl, rfl, rfl, rfl, rfl, rfl, rfl, rfl, rfl, ?_⟩
  · simp [node_specialist_post_completion, h]
  · intro v
    simp [node_return_to_menu, NodeOutcome.state, mark_llm]

/-- C8 witness: the amended reset behavior at a concrete specialist state. -/
theorem C8_witness :
    ∃ st2,
      node_specialist_post_completion (.ok "yes")
        { member_id := "M7", thread_id := "t7"
          specialist_service_specialty := some "S204"
          providers_result := some [{}] } = .ok st2 ∧
      st2.providers_result = none ∧ st2.csr_query = "" ∧ st2.stage = "GO_MENU" ∧
      st2.specialist_service_specialty = some "S204" ∧
      st2.specialist_raw_filter_input = none ∧
      st2.member_id = "M7" ∧ st2.group_id = none ∧
      st2.subscriber_id = none ∧ st2.meme_ck = none ∧
      st2.grgr_ck = none ∧ st2.thread_id = "t7" ∧
      (∀ v,
        (node_return_to_menu st2 (some v)).state.providers_result = none ∧
        (node_return_to_menu st2 (some v)).state.specialist_service_specialty = some "S204" ∧
        (node_return_to_menu st2 (some v)).state.specialist_raw_filter_input = none ∧
        (node_return_to_menu st2 (some v)).state.member_id = "M7" ∧
        (node_return_to_menu st2 (some v)).state.group_id = none ∧
        (node_return_to_menu st2 (some v)).state.subscriber_id = none ∧
        (node_return_to_menu st2 (some v)).state.meme_ck = none ∧
        (node_return_to_menu st2 (some v)).state.grgr_ck = none ∧
        (node_return_to_menu st2 (some v)).state.thread_id = "t7") :=
  C8_menu_restart_reset
    { member_id := "M7", thread_id := "t7"
      specialist_service_specialty := some "S204"
      providers_result := some [{}] } "yes" (by decide)

/-! ### C2: idempotent re-entry of the search nodes -/

/-- C2: when providers_result is already populated (Python-truthy, that is a
non-empty list), node_run_provider_search and
node_run_specialist_generic_search return the state unchanged with an empty
external-call trace: no collaborator is invoked and providers_result is not
overwritten. -/
theorem C2_idempotent_search (env : SearchEnv) (todayStr : String) (st : PCPState)
    (r : Option String) (h : truthyList st.providers_result = true) :
    node_run_provider_search env st r = .ok (.done st, []) ∧
    node_run_specialist_generic_search env todayStr st r = .ok (.done st, []) := by
  constructor
  · unfold node_run_provider_search
    simp [h]
  · unfold node_run_specialist_generic_search
    simp [h]

/-- C2 witness: both search nodes evaluated on a state holding one provider. -/
theorem C2_witness :
    node_run_provider_search trivialSearchEnv { providers_result := some [{}] } none =
      .ok (.done { providers_result := some [{}] }, []) ∧
    node_run_specialist_generic_search trivialSearchEnv "20260101"
      { providers_result := some [{}] } none =
      .ok (.done { providers_result := some [{}] }, []) :=
  C2_idempotent_search trivialSearchEnv "20260101" { providers_result := some [{}] } none
    (by decide)

/-! ### C6: collaborator failures at the step boundary -/

/-- C6 counterexample: node_start invokes the call_horizon collaborator with
no try/except, so a collaborator failure propagates out of the step to the
Engine instead of being converted into an ERROR/500 state. -/
theorem C6_counterexample :
    node_start (.error "connection failed") {} none = .error "connection failed" := rfl

/-- C6 (amended): steps that wrap their collaborator calls in try/except
convert failures into the terminal ERROR stage with code 500 (here the
member/active-PCP lookup of node_assign_pcp_ask_termination), but not every
step guards every call: node_start always propagates a call_horizon failure,
and node_run_provider_search propagates a provider_search_by_name failure. -/
theorem C6_guarded_vs_unguarded (st : PCPState) (e : String)
    (ap : Except String ActivePcp) (llm : Except String String) (r : Option String)
    (hm : st.member_id ≠ "") (ht : truthy st.termination_reason = false) :
    (∃ st2, node_assign_pcp_ask_termination (.error e) ap llm st r = .ok (.done st2) ∧
      st2.stage = "ERROR" ∧ st2.ai_response_code = some 500 ∧
      st2.ai_response = "Unable to fetch your current PCP details right now. Please try again later.") ∧
    (∀ st0 r0, node_start (.error e) st0 r0 = .error e) ∧
    node_run_provider_search nameSearchFailEnv
      { knows_provider := some true, raw_provider_input := some "John, Dallas, TX" } none =
      .error "search down" := by
  refine ⟨?_, fun st0 r0 => rfl, ?_⟩
  · refine ⟨{ mark_api st "get_active_pcp" with
        ai_response := "Unable to fetch your current PCP details right now. Please try again later."
        ai_response_code := some 500, ai_response_type := some "Dialog"
        prompts := [], stage := "ERROR" }, ?_, rfl, rfl, rfl⟩
    simp [node_assign_pcp_ask_termination, hm, ht]
  · rfl

/-- C6 witness: the guarded conversion and the unguarded propagation at a
concrete member state. -/
theorem C6_witness :
    (∃ st2, node_assign_pcp_ask_termination (.error "member service down") (.ok {}) (.ok "q")
        { member_id := "M1" } none = .ok (.done st2) ∧
      st2.stage = "ERROR" ∧ st2.ai_response_code = some 500 ∧
      st2.ai_response = "Unable to fetch your current PCP details right now. Please try again later.") ∧
    (∀ st0 r0, node_start (.error "member service down") st0 r0 = .error "member service down") ∧
    node_run_provider_search nameSearchFailEnv
      { knows_provider := some true, raw_provider_input := some "John, Dallas, TX" } none =
      .error "search down" :=
  C6_guarded_vs_unguarded { member_id := "M1" } "member service down" (.ok {}) (.ok "q") none
    (by decide) (by decide)

/-! ### C5: two-phase PCP update with verification -/

/-- C5: with a selected provider, member keys, termination reason, an active
current provider and the SOAP configuration present, node_update_pcp first
terminates the current provider with termination date today, then adds the
new provider with effective date the next calendar day, then performs one
verification read.  If any phase fails, or the read-back provider id differs
from the intended new provider id, the node ends in terminal stage ERROR with
ai_response_code 500 and the trace shows no retry (each call at most once);
on success the stage is COMPLETED with the confirmation in the prompt title,
and the graph edge out of update_pcp is END. -/
theorem C5_update_pcp_two_phase (env : UpdateEnv) (today : Nat) (st : PCPState)
    (hconf : env.soapConfigured = true)
    (hnew : pyStrip (pyStr (pyOrS st.last_selected_provider_id (some ""))) ≠ "")
    (hmeme : pyStrip (optStr st.meme_ck) ≠ "")
    (hgrgr : pyStrip (optStr st.grgr_ck) ≠ "")
    (htrsn : pyStrip (optStr st.termination_reason) ≠ "")
    (hcurr : pyStrip (optStr st.active_provider_id) ≠ "")
    (hpcp : truthy env.pcpType = true)
    (hmctr : truthy env.mctrOrsn = true) :
    ∃ termReq addReq : SoapReq,
      termReq.prpr_id = pyStrip (optStr st.active_provider_id) ∧
      termReq.term_dt = env.fmtDate today ∧
      termReq.mctr_trsn = pyStrip (optStr st.termination_reason) ∧
      addReq.prpr_id = pyStrip (pyStr (pyOrS st.last_selected_provider_id (some ""))) ∧
      addReq.eff_dt = env.fmtDate (today + 1) ∧
      addReq.term_dt = "" ∧
      (∀ e, env.callExecuteEx termReq = .error e →
        (node_update_pcp env today st).2 = [.executeEx termReq] ∧
        (node_update_pcp env today st).1.stage = "ERROR" ∧
        (node_update_pcp env today st).1.ai_response_code = some 500) ∧
      (∀ x e, env.callExecuteEx termReq = .ok x → env.callExecuteEx addReq = .error e →
        (node_update_pcp env today st).2 = [.executeEx termReq, .executeEx addReq] ∧
        (node_update_pcp env today st).1.stage = "ERROR" ∧
        (node_update_pcp env today st).1.ai_response_code = some 500) ∧
      (∀ x y e, env.callExecuteEx termReq = .ok x → env.callExecuteEx addReq = .ok y →
        env.verifyActivePcp = .error e →
        (node_update_pcp env today st).2 =
          [.executeEx termReq, .executeEx addReq, .verifyRead] ∧
        (node_update_pcp env today st).1.stage = "ERROR" ∧
        (node_update_pcp env today st).1.ai_response_code = some 500) ∧
      (∀ x y vOpt, env.callExecuteEx termReq = .ok x → env.callExecuteEx addReq = .ok y →
        env.verifyActivePcp = .ok vOpt →
        ((if truthy vOpt then pyStrip (optStr vOpt) else "") ≠
            pyStrip (pyStr (pyOrS st.last_selected_provider_id (some ""))) →
          (node_update_pcp env today st).2 =
            [.executeEx termReq, .executeEx addReq, .verifyRead] ∧
          (node_update_pcp env today st).1.stage = "ERROR" ∧
          (node_update_pcp env today st).1.ai_response_code = some 500) ∧
        ((if truthy vOpt then pyStrip (optStr vOpt) else "") =
            pyStrip (pyStr (pyOrS st.last_selected_provider_id (some ""))) →
          (node_update_pcp env today st).2 =
            [.executeEx termReq, .executeEx addReq, .verifyRead] ∧
          (node_update_pcp env today st).1.stage = "COMPLETED" ∧
          (node_update_pcp env today st).1.ai_response_code = some 101 ∧
          (node_update_pcp env today st).1.last_followup_action = some "assign_pcp")) ∧
      unconditionalEdge "update_pcp" = some "END" := by
  refine ⟨{ grgr_ck := pyStrip (optStr st.grgr_ck), meme_ck := pyStrip (optStr st.meme_ck)
            pcp_type := optStr env.pcpType
            prpr_id := pyStrip (optStr st.active_provider_id)
            eff_dt := if pyStrip (optStr st.active_eff_dt) = ""
              then env.fmtDate (today + 1)
              else env.fmtEffDate (pyStrip (optStr st.active_eff_dt))
            term_dt := env.fmtDate today
            mctr_trsn := pyStrip (optStr st.termination_reason)
            mctr_orsn := optStr env.mctrOrsn },
          { grgr_ck := pyStrip (optStr st.grgr_ck), meme_ck := pyStrip (optStr st.meme_ck)
            pcp_type := optStr env.pcpType
            prpr_id := pyStrip (pyStr (pyOrS st.last_selected_provider_id (some "")))
            eff_dt := env.fmtDate (today + 1)
            term_dt := "", mctr_trsn := "", mctr_orsn := "" },
          rfl, rfl, rfl, rfl, rfl, rfl, ?_, ?_, ?_, ?_, rfl⟩
  · intro e hterm
    simp [node_update_pcp, hconf, hnew, hmeme, hgrgr, htrsn, hcurr, hpcp, hmctr,
      hterm, updatePcpError]
  · intro x e hterm hadd
    simp [node_update_pcp, hconf, hnew, hmeme, hgrgr, htrsn, hcurr, hpcp, hmctr,
      hterm, hadd, updatePcpError]
  · intro x y e hterm hadd hver
    simp [node_update_pcp, hconf, hnew, hmeme, hgrgr, htrsn, hcurr, hpcp, hmctr,
      hterm, hadd, hver, updatePcpError]
  · intro x y vOpt hterm hadd hver
    constructor
    · intro hne
      simp [node_update_pcp, hconf, hnew, hmeme, hgrgr, htrsn, hcurr, hpcp, hmctr,
        hterm, hadd, hver, hne, updatePcpError]
    · intro heq
      simp [node_update_pcp, hconf, hnew, hmeme, hgrgr, htrsn, hcurr, hpcp, hmctr,
        hterm, hadd, hver, heq, updatePcpError]

/-- C5 witness: the two-phase update theorem applied to a ready state with
an all-success environment. -/
theorem C5_witness :
    ∃ termReq addReq : SoapReq,
      termReq.prpr_id = pyStrip (optStr updateReadyState.active_provider_id) ∧
      termReq.term_dt = happyUpdateEnv.fmtDate 7 ∧
      termReq.mctr_trsn = pyStrip (optStr updateReadyState.termination_reason) ∧
      addReq.prpr_id = pyStrip (pyStr (pyOrS updateReadyState.last_selected_provider_id (some ""))) ∧
      addReq.eff_dt = happyUpdateEnv.fmtDate (7 + 1) ∧
      addReq.term_dt = "" ∧
      (∀ e, happyUpdateEnv.callExecuteEx termReq = .error e →
        (node_update_pcp happyUpdateEnv 7 updateReadyState).2 = [.executeEx termReq] ∧
        (node_update_pcp happyUpdateEnv 7 updateReadyState).1.stage = "ERROR" ∧
        (node_update_pcp happyUpdateEnv 7 updateReadyState).1.ai_response_code = some 500) ∧
      (∀ x e, happyUpdateEnv.callExecuteEx termReq = .ok x →
        happyUpdateEnv.callExecuteEx addReq = .error e →
        (node_update_pcp happyUpdateEnv 7 updateReadyState).2 =
          [.executeEx termReq, .executeEx addReq] ∧
        (node_update_pcp happyUpdateEnv 7 updateReadyState).1.stage = "ERROR" ∧
        (node_update_pcp happyUpdateEnv 7 updateReadyState).1.ai_response_code = some 500) ∧
      (∀ x y e, happyUpdateEnv.callExecuteEx termReq = .ok x →
        happyUpdateEnv.callExecuteEx addReq = .ok y →
        happyUpdateEnv.verifyActivePcp = .error e →
        (node_update_pcp happyUpdateEnv 7 updateReadyState).2 =
          [.executeEx termReq, .executeEx addReq, .verifyRead] ∧
        (node_update_pcp happyUpdateEnv 7 updateReadyState).1.stage = "ERROR" ∧
        (node_update_pcp happyUpdateEnv 7 updateReadyState).1.ai_response_code = some 500) ∧
      (∀ x y vOpt, happyUpdateEnv.callExecuteEx termReq = .ok x →
        happyUpdateEnv.callExecuteEx addReq = .ok y →
        happyUpdateEnv.verifyActivePcp = .ok vOpt →
        ((if truthy vOpt then pyStrip (optStr vOpt) else "") ≠
            pyStrip (pyStr (pyOrS updateReadyState.last_selected_provider_id (some ""))) →
          (node_update_pcp happyUpdateEnv 7 updateReadyState).2 =
            [.executeEx termReq, .executeEx addReq, .verifyRead] ∧
          (node_update_pcp happyUpdateEnv 7 updateReadyState).1.stage = "ERROR" ∧
          (node_update_pcp happyUpdateEnv 7 updateReadyState).1.ai_response_code = some 500) ∧
        ((if truthy vOpt then pyStrip (optStr vOpt) else "") =
            pyStrip (pyStr (pyOrS updateReadyState.last_selected_provider_id (some ""))) →
          (node_update_pcp happyUpdateEnv 7 updateReadyState).2 =
            [.executeEx termReq, .executeEx addReq, .verifyRead] ∧
          (node_update_pcp happyUpdateEnv 7 updateReadyState).1.stage = "COMPLETED" ∧
          (node_update_pcp happyUpdateEnv 7 updateReadyState).1.ai_response_code = some 101 ∧
          (node_update_pcp happyUpdateEnv 7 updateReadyState).1.last_followup_action =
            some "assign_pcp")) ∧
      unconditionalEdge "update_pcp" = some "END" :=
  C5_update_pcp_two_phase happyUpdateEnv 7 updateReadyState rfl (by decide) (by decide)
    (by decide) (by decide) (by decide) rfl rfl

/-! ### C9: the yes/no answer of collect_knows_provider

The node stores knows_provider from the stripped and lower-cased reply; the
claim speaks of the lower-cased reply.  The lemmas below show stripping
whitespace from the ends cannot create or destroy an occurrence of yes,
because yes contains no whitespace character. -/

theorem lowerChar_ws {c : Char} (h : isWsChar c = true) : lowerChar c = c := by
  simp only [isWsChar, Bool.or_eq_true, decide_eq_true_eq] at h
  rcases h with ((((h | h) | h) | h) | h) | h <;> subst h <;> decide

theorem wsAll_lower {m : List Char} (h : ∀ c ∈ m, isWsChar c = true) :
    ∀ c ∈ lowerList m, isWsChar c = true := by
  intro c hc
  rcases List.mem_map.mp hc with ⟨x, hx, rfl⟩
  rw [lowerChar_ws (h x hx)]
  exact h x hx

/-- A pattern with no whitespace characters occurs in a ++ x exactly when it
occurs in x, provided a is all whitespace. -/
theorem infixAppendWsLeft (pat a x : List Char) (hp : ∀ c ∈ pat, isWsChar c = false)
    (hne : pat ≠ []) (ha : ∀ c ∈ a, isWsChar c = true) :
    pat <:+: a ++ x ↔ pat <:+: x := by
  induction a with
  | nil => simp
  | cons w a ih =>
    have hw : isWsChar w = true := ha w (List.mem_cons_self w a)
    have ihx := ih fun c hc => ha c (List.mem_cons_of_mem w hc)
    constructor
    · rintro ⟨s, t, hst⟩
      cases s with
      | nil =>
        cases pat with
        | nil => exact absurd rfl hne
        | cons p ps =>
          simp only [List.nil_append, List.cons_append] at hst
          injection hst with h1 h2
          have hpf : isWsChar p = false := hp p (List.mem_cons_self p ps)
          rw [h1, hw] at hpf
          exact Bool.noConfusion hpf
      | cons b s2 =>
        simp only [List.cons_append] at hst
        injection hst with h1 h2
        exact ihx.mp ⟨s2, t, h2⟩
    · intro h
      rcases ihx.mpr h with ⟨s, t, hst⟩
      exact ⟨w :: s, t, by simp [hst]⟩

theorem reverseInfixIff (l1 l2 : List Char) : l1.reverse <:+: l2.reverse ↔ l1 <:+: l2 := by
  constructor
  · rintro ⟨s, t, h⟩
    refine ⟨t.reverse, s.reverse, ?_⟩
    have h2 := congrArg List.reverse h
    simpa [List.reverse_append, List.append_assoc] using h2
  · rintro ⟨s, t, h⟩
    refine ⟨t.reverse, s.reverse, ?_⟩
    have h2 := congrArg List.reverse h
    simpa [List.reverse_append, List.append_assoc] using h2

/-- Mirror image of infixAppendWsLeft for a whitespace run on the right. -/
theorem infixAppendWsRight (pat x b : List Char) (hp : ∀ c ∈ pat, isWsChar c = false)
    (hne : pat ≠ []) (hb : ∀ c ∈ b, isWsChar c = true) :
    pat <:+: x ++ b ↔ pat <:+: x := by
  rw [← reverseInfixIff pat (x ++ b), ← reverseInfixIff pat x, List.reverse_append]
  exact infixAppendWsLeft pat.reverse b.reverse x.reverse
    (fun c hc => hp c (List.mem_reverse.mp hc))
    (by simpa using hne)
    (fun c hc => hb c (List.mem_reverse.mp hc))

/-- Occurrences of yes in the lower-cased text survive stripping whitespace
from both ends, in both directions. -/
theorem yes_lower_strip_iff (l : List Char) :
    "yes".data <:+: lowerList (stripWs l) ↔ "yes".data <:+: lowerList l := by
  have hp : ∀ c ∈ "yes".data, isWsChar c = false := by decide
  have hne : ("yes".data : List Char) ≠ [] := by decide
  have h1 : lowerList l = lowerList (l.takeWhile isWsChar) ++ lowerList (stripLeftWs l) := by
    unfold lowerList stripLeftWs
    rw [← List.map_append, List.takeWhile_append_dropWhile]
  have hdec : stripLeftWs l =
      stripWs l ++ ((stripLeftWs l).reverse.takeWhile isWsChar).reverse := by
    have h := congrArg List.reverse
      (List.takeWhile_append_dropWhile isWsChar (stripLeftWs l).reverse)
    rw [List.reverse_append, List.reverse_reverse] at h
    conv_lhs => rw [← h]
    rfl
  have h2 : lowerList (stripLeftWs l) =
      lowerList (stripWs l) ++ lowerList ((stripLeftWs l).reverse.takeWhile isWsChar).reverse := by
    unfold lowerList
    rw [← List.map_append, ← hdec]
  have hwsA : ∀ c ∈ lowerList (l.takeWhile isWsChar), isWsChar c = true :=
    wsAll_lower fun c hc => List.mem_takeWhile_imp hc
  have hwsB : ∀ c ∈ lowerList ((stripLeftWs l).reverse.takeWhile isWsChar).reverse,
      isWsChar c = true :=
    wsAll_lower fun c hc => List.mem_takeWhile_imp (List.mem_reverse.mp hc)
  rw [h1, h2]
  rw [infixAppendWsLeft "yes".data _ _ hp hne hwsA]
  rw [infixAppendWsRight "yes".data _ _ hp hne hwsB]

theorem hasSub_yes_strip_eq (l : List Char) :
    hasSub "yes".data (lowerList (stripWs l)) = hasSub "yes".data (lowerList l) := by
  unfold hasSub
  exact decide_eq_decide.mpr (yes_lower_strip_iff l)

/-- C9: resumed with any reply on the ask path (knows_provider unset and no
free-form shortcut), node_collect_knows_provider always sets knows_provider,
and it is true exactly when the lower-cased reply contains the substring
yes (including the empty reply, which yields false). -/
theorem C9_knows_provider_set (parse : Except String ParsedProviderInput) (q : String)
    (st : PCPState) (reply : String)
    (hK : st.knows_provider = none)
    (hS : pyStrip (optStr st.initial_assign_text) = "" ∨ truthy st.raw_provider_input = true) :
    ∃ st2, node_collect_knows_provider parse (.ok q) st (some reply) = .ok (.done st2) ∧
      st2.knows_provider = some (hasSub "yes".data (pyLower reply).data) := by
  have hsc : knowsProviderShortcut parse st = none := by
    unfold knowsProviderShortcut
    rcases hS with h | h
    · by_cases htr : truthy st.raw_provider_input = true
      · simp [htr]
      · simp [hK, htr, h]
    · simp [h]
  refine ⟨{ mark_llm st with
      ai_response := "", prompt_title := some (pyStrip q)
      prompts := ["Yes", "No"], ai_response_code := some 101
      ai_response_type := some "AURA", stage := "ASK_KNOWS_PROVIDER"
      csr_query := pyLower (pyStrip reply)
      knows_provider := some (hasSub ['y', 'e', 's'] (pyLower (pyStrip reply)).data) },
    ?_, ?_⟩
  · simp [node_collect_knows_provider, hsc, hK]
  · show some (hasSub ['y', 'e', 's'] (pyLower (pyStrip reply)).data) =
      some (hasSub "yes".data (pyLower reply).data)
    congr 1
    exact hasSub_yes_strip_eq reply.data

/-- C9 witness: the captured answer on a concrete affirmative reply. -/
theorem C9_witness :
    ∃ st2, node_collect_knows_provider (.ok {}) (.ok "Do you know the provider?")
        {} (some "  YES please") = .ok (.done st2) ∧
      st2.knows_provider = some (hasSub "yes".data (pyLower "  YES please").data) :=
  C9_knows_provider_set (.ok {}) "Do you know the provider?" {} "  YES please" rfl
    (Or.inl (by decide))

/-! ### C7: the turn-response contract table -/

/-- The free-form shortcut never suspends: it either propagates a parse
failure or returns a completed state. -/
theorem knowsShortcut_no_suspend (parse : Except String ParsedProviderInput)
    (st : PCPState) (r0 : Except String NodeOutcome)
    (h : knowsProviderShortcut parse st = some r0) :
    (∃ e, r0 = .error e) ∨ ∃ s, r0 = .ok (.done s) := by
  simp only [knowsProviderShortcut] at h
  repeat' split at h
  all_goals
    first
      | (simp only [Option.some.injEq] at h
         exact Or.inl ⟨_, h.symm⟩)
      | (simp only [Option.some.injEq] at h
         exact Or.inr ⟨_, h.symm⟩)
      | exact absurd h (by simp)

/-- Every suspension of node_collect_knows_provider carries the
ASK_KNOWS_PROVIDER stage and leaves prompts = Yes/No in the state. -/
theorem knowsProvider_suspend_shape {parse : Except String ParsedProviderInput}
    {llmQ : Except String String} {st : PCPState} {r : Option String}
    {p : InterruptPayload} {st2 : PCPState}
    (h : node_collect_knows_provider parse llmQ st r = .ok (.suspend p st2)) :
    p.stage = "ASK_KNOWS_PROVIDER" ∧ p.stage ≠ "" ∧ st2.prompts = ["Yes", "No"] := by
  unfold node_collect_knows_provider at h
  split at h
  · rename_i r0 heq
    rcases knowsShortcut_no_suspend _ _ _ heq with ⟨e, rfl⟩ | ⟨s, rfl⟩
    · exact absurd h (by simp)
    · exact absurd h (by simp)
  · split at h
    · cases llmQ with
      | error e => exact absurd h (by simp)
      | ok q =>
        cases r with
        | none =>
          simp only [Except.ok.injEq, NodeOutcome.suspend.injEq] at h
          obtain ⟨hp, hs⟩ := h
          refine ⟨?_, ?_, ?_⟩
          · rw [← hp]
          · rw [← hp]
            simp
          · rw [← hs]
        | some v => exact absurd h (by simp)
    · exact absurd h (by simp)

/-- Every suspension produced through showProviderList shows the rendered
provider grid JSON at the requested stage. -/
theorem showProviderList_suspend {stg : String} {ttl : Option String}
    {provs : List Provider} {grid : List GridRow} {st : PCPState} {r : Option String}
    {tr : List String} {p : InterruptPayload} {st2 : PCPState} {tr2 : List String}
    (h : showProviderList stg ttl provs grid st r tr = .ok (.suspend p st2, tr2)) :
    p.prompt = renderProvidersJson grid ∧ p.stage = stg ∧
    st2.ai_response = renderProvidersJson grid := by
  unfold showProviderList at h
  cases r with
  | none =>
    simp only [Except.ok.injEq, Prod.mk.injEq, NodeOutcome.suspend.injEq] at h
    obtain ⟨⟨hp, hs⟩, htr⟩ := h
    refine ⟨?_, ?_, ?_⟩
    · rw [← hp]
    · rw [← hp]
    · rw [← hs]
  | some v => exact absurd h (by simp)

/-- Every suspension of node_run_provider_search is a SHOW_PROVIDER_LIST
response whose prompt is the providers JSON of some grid. -/
theorem runProviderSearch_suspend_shape {env : SearchEnv} {st : PCPState}
    {r : Option String} {p : InterruptPayload} {st2 : PCPState} {tr : List String}
    (h : node_run_provider_search env st r = .ok (.suspend p st2, tr)) :
    ∃ rows, p.prompt = renderProvidersJson rows ∧ p.stage = "SHOW_PROVIDER_LIST" := by
  unfold node_run_provider_search at h
  simp only [] at h
  repeat' split at h
  all_goals
    first
      | exact absurd h (by simp)
      | exact ⟨_, (showProviderList_suspend h).1, (showProviderList_suspend h).2.1⟩

/-- C7: the (CurrentStage, AIResponseCode, AIResponseType) contracts of the
suspension responses: WAIT_TERMINATION_REASON is 112/AURA; a suspension of
collect_knows_provider maps to ASK_KNOWS_PROVIDER with 101/AURA and Prompts
Yes/No; a suspension of run_provider_search maps to SHOW_PROVIDER_LIST with
107/AURA and AIResponse the providers JSON; ASK_SPECIALIST_SERVICE is
109/AURA; ASK_SPECIALIST_FILTERS and ASK_NO_FLOW_FILTERS are 103/Dialog. -/
theorem C7_response_contracts :
    (∀ p st tid msg cs now,
      (chatRespond "WAIT_TERMINATION_REASON" p st tid msg cs now).CurrentStage =
        "WAIT_TERMINATION_REASON" ∧
      (chatRespond "WAIT_TERMINATION_REASON" p st tid msg cs now).AIResponseCode = 112 ∧
      (chatRespond "WAIT_TERMINATION_REASON" p st tid msg cs now).AIResponseType = "AURA") ∧
    (∀ parse llmQ st r p st2,
      node_collect_knows_provider parse llmQ st r = .ok (.suspend p st2) →
      chatStageFromNode p st2 = "ASK_KNOWS_PROVIDER" ∧
      ∀ tid msg cs now,
        (chatRespond (chatStageFromNode p st2) p st2 tid msg cs now).CurrentStage =
          "ASK_KNOWS_PROVIDER" ∧
        (chatRespond (chatStageFromNode p st2) p st2 tid msg cs now).AIResponseCode = 101 ∧
        (chatRespond (chatStageFromNode p st2) p st2 tid msg cs now).AIResponseType = "AURA" ∧
        (chatRespond (chatStageFromNode p st2) p st2 tid msg cs now).Prompts = ["Yes", "No"]) ∧
    (∀ env st r p st2 tr,
      node_run_provider_search env st r = .ok (.suspend p st2, tr) →
      ∃ rows,
        chatStageFromNode p st2 = "SHOW_PROVIDER_LIST" ∧
        ∀ tid msg cs now,
          (chatRespond (chatStageFromNode p st2) p st2 tid msg cs now).CurrentStage =
            "SHOW_PROVIDER_LIST" ∧
          (chatRespond (chatStageFromNode p st2) p st2 tid msg cs now).AIResponseCode = 107 ∧
          (chatRespond (chatStageFromNode p st2) p st2 tid msg cs now).AIResponseType = "AURA" ∧
          (chatRespond (chatStageFromNode p st2) p st2 tid msg cs now).AIResponse =
            renderProvidersJson rows) ∧
    (∀ p st tid msg cs now,
      (chatRespond "ASK_SPECIALIST_SERVICE" p st tid msg cs now).CurrentStage =
        "ASK_SPECIALIST_SERVICE" ∧
      (chatRespond "ASK_SPECIALIST_SERVICE" p st tid msg cs now).AIResponseCode = 109 ∧
      (chatRespond "ASK_SPECIALIST_SERVICE" p st tid msg cs now).AIResponseType = "AURA") ∧
    (∀ p st tid msg cs now,
      (chatRespond "ASK_SPECIALIST_FILTERS" p st tid msg cs now).CurrentStage =
        "ASK_SPECIALIST_FILTERS" ∧
      (chatRespond "ASK_SPECIALIST_FILTERS" p st tid msg cs now).AIResponseCode = 103 ∧
      (chatRespond "ASK_SPECIALIST_FILTERS" p st tid msg cs now).AIResponseType = "Dialog") ∧
    (∀ p st tid msg cs now,
      (chatRespond "ASK_NO_FLOW_FILTERS" p st tid msg cs now).CurrentStage =
        "ASK_NO_FLOW_FILTERS" ∧
      (chatRespond "ASK_NO_FLOW_FILTERS" p st tid msg cs now).AIResponseCode = 103 ∧
      (chatRespond "ASK_NO_FLOW_FILTERS" p st tid msg cs now).AIResponseType = "Dialog") := by
  refine ⟨?_, ?_, ?_, ?_, ?_, ?_⟩
  · intro p st tid msg cs now
    exact ⟨rfl, rfl, rfl⟩
  · intro parse llmQ st r p st2 h
    obtain ⟨hstage, hne, hprompts⟩ := knowsProvider_suspend_shape h
    have hsfn : chatStageFromNode p st2 = "ASK_KNOWS_PROVIDER" := by
      unfold chatStageFromNode
      rw [if_pos hne, hstage]
    refine ⟨hsfn, ?_⟩
    intro tid msg cs now
    rw [hsfn]
    refine ⟨rfl, rfl, rfl, ?_⟩
    simp [chatRespond, base_response, hprompts]
  · intro env st r p st2 tr h
    obtain ⟨rows, hprompt, hstage⟩ := runProviderSearch_suspend_shape h
    have hne : p.stage ≠ "" := by rw [hstage]; decide
    have hsfn : chatStageFromNode p st2 = "SHOW_PROVIDER_LIST" := by
      unfold chatStageFromNode
      rw [if_pos hne, hstage]
    refine ⟨rows, hsfn, ?_⟩
    intro tid msg cs now
    rw [hsfn]
    refine ⟨rfl, rfl, rfl, ?_⟩
    have hpne : p.prompt ≠ "" := by
      rw [hprompt]
      exact renderProvidersJson_ne_empty rows
    simp [chatRespond, base_response, hpne, hprompt]
    intro hcon
    exact absurd hcon (renderProvidersJson_ne_empty rows)
  · intro p st tid msg cs now
    exact ⟨rfl, rfl, rfl⟩
  · intro p st tid msg cs now
    exact ⟨rfl, rfl, rfl⟩
  · intro p st tid msg cs now
    exact ⟨rfl, rfl, rfl⟩

/-- C7 witness: the contract table applied at concrete suspensions: a real
suspension of collect_knows_provider from the empty state and a real
suspension of run_provider_search in the provider-id branch, plus the
mapper-only stages at concrete payloads. -/
theorem C7_witness :
    ((chatRespond "WAIT_TERMINATION_REASON" {} {} "t1" "m" "src" "now").CurrentStage =
        "WAIT_TERMINATION_REASON" ∧
      (chatRespond "WAIT_TERMINATION_REASON" {} {} "t1" "m" "src" "now").AIResponseCode = 112 ∧
      (chatRespond "WAIT_TERMINATION_REASON" {} {} "t1" "m" "src" "now").AIResponseType = "AURA") ∧
    (chatStageFromNode askKnowsPayload askKnowsState = "ASK_KNOWS_PROVIDER" ∧
      ∀ tid msg cs now,
        (chatRespond (chatStageFromNode askKnowsPayload askKnowsState) askKnowsPayload
            askKnowsState tid msg cs now).CurrentStage = "ASK_KNOWS_PROVIDER" ∧
        (chatRespond (chatStageFromNode askKnowsPayload askKnowsState) askKnowsPayload
            askKnowsState tid msg cs now).AIResponseCode = 101 ∧
        (chatRespond (chatStageFromNode askKnowsPayload askKnowsState) askKnowsPayload
            askKnowsState tid msg cs now).AIResponseType = "AURA" ∧
        (chatRespond (chatStageFromNode askKnowsPayload askKnowsState) askKnowsPayload
            askKnowsState tid msg cs now).Prompts = ["Yes", "No"]) ∧
    (∃ rows,
      chatStageFromNode showListPayload showListState = "SHOW_PROVIDER_LIST" ∧
      ∀ tid msg cs now,
        (chatRespond (chatStageFromNode showListPayload showListState) showListPayload
            showListState tid msg cs now).CurrentStage = "SHOW_PROVIDER_LIST" ∧
        (chatRespond (chatStageFromNode showListPayload showListState) showListPayload
            showListState tid msg cs now).AIResponseCode = 107 ∧
        (chatRespond (chatStageFromNode showListPayload showListState) showListPayload
            showListState tid msg cs now).AIResponseType = "AURA" ∧
        (chatRespond (chatStageFromNode showListPayload showListState) showListPayload
            showListState tid msg cs now).AIResponse = renderProvidersJson rows) ∧
    ((chatRespond "ASK_SPECIALIST_SERVICE" {} {} "t1" "m" "src" "now").CurrentStage =
        "ASK_SPECIALIST_SERVICE" ∧
      (chatRespond "ASK_SPECIALIST_SERVICE" {} {} "t1" "m" "src" "now").AIResponseCode = 109 ∧
      (chatRespond "ASK_SPECIALIST_SERVICE" {} {} "t1" "m" "src" "now").AIResponseType = "AURA") ∧
    ((chatRespond "ASK_SPECIALIST_FILTERS" {} {} "t1" "m" "src" "now").CurrentStage =
        "ASK_SPECIALIST_FILTERS" ∧
      (chatRespond "ASK_SPECIALIST_FILTERS" {} {} "t1" "m" "src" "now").AIResponseCode = 103 ∧
      (chatRespond "ASK_SPECIALIST_FILTERS" {} {} "t1" "m" "src" "now").AIResponseType = "Dialog") ∧
    ((chatRespond "ASK_NO_FLOW_FILTERS" {} {} "t1" "m" "src" "now").CurrentStage =
        "ASK_NO_FLOW_FILTERS" ∧
      (chatRespond "ASK_NO_FLOW_FILTERS" {} {} "t1" "m" "src" "now").AIResponseCode = 103 ∧
      (chatRespond "ASK_NO_FLOW_FILTERS" {} {} "t1" "m" "src" "now").AIResponseType = "Dialog") :=
  ⟨C7_response_contracts.1 {} {} "t1" "m" "src" "now",
   C7_response_contracts.2.1 (.ok {}) (.ok "Q") {} none askKnowsPayload askKnowsState rfl,
   C7_response_contracts.2.2.1 idSearchEnv
     { knows_provider := some true, raw_provider_input := some "12345678" } none
     showListPayload showListState ["llm_parse_provider_input", "provider_search_by_id"] rfl,
   C7_response_contracts.2.2.2.1 {} {} "t1" "m" "src" "now",
   C7_response_contracts.2.2.2.2.1 {} {} "t1" "m" "src" "now",
   C7_response_contracts.2.2.2.2.2 {} {} "t1" "m" "src" "now"⟩

/-! ### C1: resume correctness of the Engine (modelled from the spec) -/

theorem loadThread_save (store : StateStore) (tid : String) (st : PCPState) (pos : String) :
    loadThread (saveThread store tid st pos) tid = some (st, pos) := by
  unfold loadThread saveThread
  simp [List.find?]

theorem runFrom_head (g : FlowGraph) (m : Nat) (nodeName : String) (st : PCPState)
    (resume : Option String) :
    (runFrom g (m + 1) nodeName st resume).1.head? = some nodeName := by
  unfold runFrom
  cases hs : g.stepOf nodeName with
  | none => simp [hs]
  | some f =>
    cases hf : f st resume with
    | suspend p st2 => simp [hs, hf]
    | done st2 =>
      cases hn : g.nextOf nodeName st2 with
      | none => simp [hs, hf, hn]
      | some nxt => simp [hs, hf, hn]

/-- C1: for a thread parked in the store at resume position pos, calling the
Engine again with that thread id and a resume value (1) runs, and the first
step it re-enters is exactly pos — never any other step; (2) produces the
same outcome regardless of how much wall-clock time elapsed since the
suspension; and (3) whenever that run suspends at some step n, the store
afterwards records exactly (state, n) for this thread, so the next resume
re-enters exactly the step that suspended. -/
theorem C1_resume_correctness (g : FlowGraph) (fuel : Nat) (store : StateStore)
    (tid v : String) (st : PCPState) (pos : String) (e1 e2 : Nat)
    (hload : loadThread store tid = some (st, pos)) (hfuel : 0 < fuel) :
    (∃ tr res store2, engineResume g fuel store tid v e1 = some (tr, res, store2) ∧
      tr.head? = some pos) ∧
    engineResume g fuel store tid v e1 = engineResume g fuel store tid v e2 ∧
    (∀ tr n p st2 store2,
      engineResume g fuel store tid v e1 = some (tr, .suspendedAt n p st2, store2) →
      loadThread store2 tid = some (st2, n)) := by
  obtain ⟨m, rfl⟩ : ∃ m, fuel = m + 1 := ⟨fuel - 1, by omega⟩
  refine ⟨?_, rfl, ?_⟩
  · unfold engineResume
    rw [hload]
    exact ⟨_, _, _, rfl, runFrom_head g m pos st (some v)⟩
  · intro tr n p st2 store2 h
    unfold engineResume at h
    rw [hload] at h
    simp only [] at h
    cases hres : (runFrom g (m + 1) pos st (some v)).2 with
    | suspendedAt n0 p0 st0 =>
      rw [hres] at h
      simp only [Option.some.injEq, Prod.mk.injEq] at h
      obtain ⟨-, hmatch, hstore⟩ := h
      cases hmatch
      rw [← hstore]
      exact loadThread_save store tid st2 n
    | finished st0 =>
      rw [hres] at h
      simp at h
    | stuck =>
      rw [hres] at h
      simp at h

/-- C1 witness: the resume theorem applied to a one-step graph with one
parked thread, with two different elapsed times. -/
theorem C1_witness :
    (∃ tr res store2, engineResume demoGraph 5 demoStore "t1" "hello" 1000 =
        some (tr, res, store2) ∧ tr.head? = some "ask") ∧
    engineResume demoGraph 5 demoStore "t1" "hello" 1000 =
      engineResume demoGraph 5 demoStore "t1" "hello" 999999999 ∧
    (∀ tr n p st2 store2,
      engineResume demoGraph 5 demoStore "t1" "hello" 1000 =
        some (tr, .suspendedAt n p st2, store2) →
      loadThread store2 "t1" = some (st2, n)) :=
  C1_resume_correctness demoGraph 5 demoStore "t1" "hello" {} "ask" 1000 999999999
    rfl (by omega)

end PCPSpec
